import Mathlib

/-!
Shallow embedding of the PortAudio ASIO host-API adapter
(src/portaudio/src/hostapi/asio/pa_asio.cpp, WinUAE-patched fork) and
verification of the frozen specification claims.

Modelling conventions:
* 32-bit C `unsigned long` arithmetic is `Nat` with explicit `% 4294967296`
  where overflow can occur; C `long` values that are compared with negative
  sentinels (buffer granularity) are `Int`.
* The file targets the Windows build of the source (`PA_LSB_IS_NATIVE_`
  defined, `PA_MSB_IS_NATIVE_` undefined), which is the only platform this
  fork builds for; the `#ifdef MAC` branches are dead code there.
* Buffers are lists of sample words (16/32-bit formats) or bytes (24-bit
  packed formats), matching the element width the C converter loops use.
* The real-time stream state mutated by `bufferSwitchTimeInfo` is an explicit
  record, and external events (the user callback verdict delivered through
  the buffer processor, buffer-processor emptiness, wait outcomes) are
  oracle parameters.
-/

namespace PaAsio

/-- PortAudio error codes returned by the embedded operations
(subset of the `PaError` values used in pa_asio.cpp). -/
inductive PaError where
  | paNoError
  | paDeviceUnavailable
  | paInsufficientMemory
  | paUnanticipatedHostError
  | paTimedOut
  | paStreamIsStopped
  | paInputOverflowed
  | paOutputUnderflowed
  | paCanNotReadFromAnOutputOnlyStream
  | paCanNotWriteToAnInputOnlyStream
deriving DecidableEq, Repr

/-- `paInputOverflow` status-flag bit (PortAudio callback flags). -/
def paInputOverflow : Nat := 2

/-- `paOutputUnderflow` status-flag bit (PortAudio callback flags);
the source also refers to it by its alias `paOutputUnderflowed`. -/
def paOutputUnderflow : Nat := 4

/-- The ASIO hardware sample-type tags handled by the converter
selection switches in pa_asio.cpp. -/
inductive ASIOSampleType where
  | ASIOSTInt16MSB
  | ASIOSTInt16LSB
  | ASIOSTFloat32MSB
  | ASIOSTFloat32LSB
  | ASIOSTFloat64MSB
  | ASIOSTFloat64LSB
  | ASIOSTInt32MSB
  | ASIOSTInt32LSB
  | ASIOSTInt32MSB16
  | ASIOSTInt32MSB18
  | ASIOSTInt32MSB20
  | ASIOSTInt32MSB24
  | ASIOSTInt32LSB16
  | ASIOSTInt32LSB18
  | ASIOSTInt32LSB20
  | ASIOSTInt32LSB24
  | ASIOSTInt24MSB
  | ASIOSTInt24LSB
deriving DecidableEq, Repr

/-- Names of the `PaAsioBufferConverter` functions defined in pa_asio.cpp.
A null converter pointer is represented as `Option.none` at use sites. -/
inductive PaAsioBufferConverterName where
  | Swap16
  | Swap24
  | Swap32
  | SwapShiftLeft32
  | ShiftRightSwap32
  | ShiftLeft32
  | ShiftRight32
  | Swap64ConvertFloat64ToFloat32
  | ConvertFloat64ToFloat32
  | ConvertFloat32ToFloat64Swap64
  | ConvertFloat32ToFloat64
deriving DecidableEq, Repr

/-- Per-sample action of `Swap16` (pa_asio.cpp line 436):
`*p++ = (unsigned short)((temp<<8) | (temp>>8))` on a 16-bit word. -/
def Swap16sample (x : Nat) : Nat :=
  ((x <<< 8) ||| (x >>> 8)) % 2 ^ 16

/-- Per-sample action of the `PA_SWAP32_` macro (pa_asio.cpp line 460) on a
32-bit word: `(x>>24) | ((x>>8)&0xFF00) | ((x<<8)&0xFF0000) | (x<<24)`
evaluated in 32-bit unsigned arithmetic. -/
def Swap32sample (x : Nat) : Nat :=
  (x >>> 24) ||| ((x >>> 8) &&& 0xFF00) ||| ((x <<< 8) &&& 0xFF0000) |||
    ((x <<< 24) % 2 ^ 32)

/-- `Swap24` (pa_asio.cpp line 445): swaps the first and third byte of each
consecutive 3-byte sample; the buffer is a list of bytes. -/
def Swap24buffer : List Nat → List Nat
  | b0 :: b1 :: b2 :: rest => b2 :: b1 :: b0 :: Swap24buffer rest
  | rest => rest

/-- Per-sample action of `ShiftLeft32` (pa_asio.cpp line 500):
`*p++ = temp << shift` in 32-bit unsigned arithmetic. -/
def ShiftLeft32sample (shift x : Nat) : Nat :=
  (x <<< shift) % 2 ^ 32

/-- Per-sample action of `ShiftRight32` (pa_asio.cpp line 512):
`*p++ = temp >> shift` (logical shift on unsigned long). -/
def ShiftRight32sample (shift x : Nat) : Nat :=
  x >>> shift

/-- Per-sample action of `SwapShiftLeft32` (pa_asio.cpp line 475):
byte swap followed by left shift. -/
def SwapShiftLeft32sample (shift x : Nat) : Nat :=
  (Swap32sample x <<< shift) % 2 ^ 32

/-- Per-sample action of `ShiftRightSwap32` (pa_asio.cpp line 488):
right shift followed by byte swap. -/
def ShiftRightSwap32sample (shift x : Nat) : Nat :=
  Swap32sample (x >>> shift)

/-- `SelectAsioToPaConverter` (pa_asio.cpp lines 600-743), Windows build
(`PA_LSB_IS_NATIVE_`): returns the converter function (or none) and the
shift amount for each hardware sample type. -/
def SelectAsioToPaConverter :
    ASIOSampleType → Option PaAsioBufferConverterName × Nat
  | .ASIOSTInt16MSB => (some .Swap16, 0)
  | .ASIOSTInt16LSB => (none, 0)
  | .ASIOSTFloat32MSB => (some .Swap32, 0)
  | .ASIOSTFloat32LSB => (none, 0)
  | .ASIOSTFloat64MSB => (some .Swap64ConvertFloat64ToFloat32, 0)
  | .ASIOSTFloat64LSB => (some .ConvertFloat64ToFloat32, 0)
  | .ASIOSTInt32MSB => (some .Swap32, 0)
  | .ASIOSTInt32LSB => (none, 0)
  | .ASIOSTInt32MSB16 => (some .SwapShiftLeft32, 16)
  | .ASIOSTInt32MSB18 => (some .SwapShiftLeft32, 14)
  | .ASIOSTInt32MSB20 => (some .SwapShiftLeft32, 12)
  | .ASIOSTInt32MSB24 => (some .SwapShiftLeft32, 8)
  | .ASIOSTInt32LSB16 => (some .ShiftLeft32, 16)
  | .ASIOSTInt32LSB18 => (some .ShiftLeft32, 14)
  | .ASIOSTInt32LSB20 => (some .ShiftLeft32, 12)
  | .ASIOSTInt32LSB24 => (some .ShiftLeft32, 8)
  | .ASIOSTInt24MSB => (some .Swap24, 0)
  | .ASIOSTInt24LSB => (none, 0)

/-- `SelectPaToAsioConverter` (pa_asio.cpp lines 746-889), Windows build
(`PA_LSB_IS_NATIVE_`). -/
def SelectPaToAsioConverter :
    ASIOSampleType → Option PaAsioBufferConverterName × Nat
  | .ASIOSTInt16MSB => (some .Swap16, 0)
  | .ASIOSTInt16LSB => (none, 0)
  | .ASIOSTFloat32MSB => (some .Swap32, 0)
  | .ASIOSTFloat32LSB => (none, 0)
  | .ASIOSTFloat64MSB => (some .ConvertFloat32ToFloat64Swap64, 0)
  | .ASIOSTFloat64LSB => (some .ConvertFloat32ToFloat64, 0)
  | .ASIOSTInt32MSB => (some .Swap32, 0)
  | .ASIOSTInt32LSB => (none, 0)
  | .ASIOSTInt32MSB16 => (some .ShiftRightSwap32, 16)
  | .ASIOSTInt32MSB18 => (some .ShiftRightSwap32, 14)
  | .ASIOSTInt32MSB20 => (some .ShiftRightSwap32, 12)
  | .ASIOSTInt32MSB24 => (some .ShiftRightSwap32, 8)
  | .ASIOSTInt32LSB16 => (some .ShiftRight32, 16)
  | .ASIOSTInt32LSB18 => (some .ShiftRight32, 14)
  | .ASIOSTInt32LSB20 => (some .ShiftRight32, 12)
  | .ASIOSTInt32LSB24 => (some .ShiftRight32, 8)
  | .ASIOSTInt24MSB => (some .Swap24, 0)
  | .ASIOSTInt24LSB => (none, 0)

/-- Applies a selected converter to a buffer: the word-level converters act
per sample, `Swap24` acts on the byte stream. The floating-point converters
have no integer bit-pattern semantics in this embedding, so applying them
yields `none`. A null converter (`Option.none`) leaves the buffer
untouched, as in `bufferSwitchTimeInfo`, which only invokes a non-null
converter. -/
def applyConverterSamples (converter : Option PaAsioBufferConverterName)
    (shift : Nat) (buffer : List Nat) : Option (List Nat) :=
  match converter with
  | none => some buffer
  | some .Swap16 => some (buffer.map Swap16sample)
  | some .Swap24 => some (Swap24buffer buffer)
  | some .Swap32 => some (buffer.map Swap32sample)
  | some .SwapShiftLeft32 => some (buffer.map (SwapShiftLeft32sample shift))
  | some .ShiftRightSwap32 => some (buffer.map (ShiftRightSwap32sample shift))
  | some .ShiftLeft32 => some (buffer.map (ShiftLeft32sample shift))
  | some .ShiftRight32 => some (buffer.map (ShiftRight32sample shift))
  | some .Swap64ConvertFloat64ToFloat32 => none
  | some .ConvertFloat64ToFloat32 => none
  | some .ConvertFloat32ToFloat64Swap64 => none
  | some .ConvertFloat32ToFloat64 => none

/-- Hardware→canonical conversion of a buffer for sample type `t`, using the
converter and shift selected by `SelectAsioToPaConverter`. -/
def asioToPaBuffer (t : ASIOSampleType) (buffer : List Nat) :
    Option (List Nat) :=
  applyConverterSamples (SelectAsioToPaConverter t).1
    (SelectAsioToPaConverter t).2 buffer

/-- Canonical→hardware conversion of a buffer for sample type `t`, using the
converter and shift selected by `SelectPaToAsioConverter`. -/
def paToAsioBuffer (t : ASIOSampleType) (buffer : List Nat) :
    Option (List Nat) :=
  applyConverterSamples (SelectPaToAsioConverter t).1
    (SelectPaToAsioConverter t).2 buffer

/-- Hardware→canonical→hardware round trip for sample type `t`. -/
def asioRoundTrip (t : ASIOSampleType) (buffer : List Nat) :
    Option (List Nat) :=
  (asioToPaBuffer t buffer).bind (paToAsioBuffer t)

/-- Integer hardware formats (everything except the four float tags). -/
def isIntegerFormat : ASIOSampleType → Bool
  | .ASIOSTFloat32MSB => false
  | .ASIOSTFloat32LSB => false
  | .ASIOSTFloat64MSB => false
  | .ASIOSTFloat64LSB => false
  | _ => true

/-- Range condition under which a sample of an integer format survives the
round trip bit-exactly: the sample fits the word width of the format, and
for the 16/18/20/24-significant-bit-in-32-bit packed formats the bits that
the canonical→hardware shift discards (the top `shift` bits of the
native-byte-order value) are zero. -/
def integerSampleExact : ASIOSampleType → Nat → Bool
  | .ASIOSTInt16MSB, x => x < 2 ^ 16
  | .ASIOSTInt16LSB, x => x < 2 ^ 16
  | .ASIOSTInt24MSB, x => x < 2 ^ 8
  | .ASIOSTInt24LSB, x => x < 2 ^ 8
  | .ASIOSTInt32MSB, x => x < 2 ^ 32
  | .ASIOSTInt32LSB, x => x < 2 ^ 32
  | .ASIOSTInt32MSB16, x => x < 2 ^ 32 && Swap32sample x < 2 ^ 16
  | .ASIOSTInt32MSB18, x => x < 2 ^ 32 && Swap32sample x < 2 ^ 18
  | .ASIOSTInt32MSB20, x => x < 2 ^ 32 && Swap32sample x < 2 ^ 20
  | .ASIOSTInt32MSB24, x => x < 2 ^ 32 && Swap32sample x < 2 ^ 24
  | .ASIOSTInt32LSB16, x => x < 2 ^ 16
  | .ASIOSTInt32LSB18, x => x < 2 ^ 18
  | .ASIOSTInt32LSB20, x => x < 2 ^ 20
  | .ASIOSTInt32LSB24, x => x < 2 ^ 24
  | _, _ => false

/-- Driver buffer-size limits (`PaAsioDriverInfo` fields used by the
negotiators). Sizes are non-negative frame counts; the granularity keeps
its signed type because `-1` is the power-of-two sentinel. -/
structure PaAsioDriverInfo where
  bufferMinSize : Nat
  bufferMaxSize : Nat
  bufferPreferredSize : Nat
  bufferGranularity : Int
deriving DecidableEq, Repr

/-- Conversion of a C `long` to `unsigned long` (32-bit), as happens when
`bufferGranularity` enters unsigned arithmetic. -/
def toULong (i : Int) : Nat :=
  (i % (4294967296 : Int)).toNat

/-- `NextPowerOfTwo` (pa_asio.cpp lines 1693-1707): bit-smearing next power
of two on a 32-bit unsigned value, `--x` and `x + 1` wrapping at 2^32. -/
def NextPowerOfTwo (x0 : Nat) : Nat :=
  let x := (x0 + 4294967295) % 2 ^ 32
  let x := x ||| (x >>> 1)
  let x := x ||| (x >>> 2)
  let x := x ||| (x >>> 4)
  let x := x ||| (x >>> 8)
  let x := x ||| (x >>> 16)
  (x + 1) % 2 ^ 32

/-- `SelectHostBufferSizeForUnspecifiedUserFramesPerBuffer`
(pa_asio.cpp lines 1710-1767). -/
def SelectHostBufferSizeForUnspecifiedUserFramesPerBuffer
    (targetBufferingLatencyFrames : Nat) (driverInfo : PaAsioDriverInfo) :
    Nat :=
  if targetBufferingLatencyFrames ≤ driverInfo.bufferMinSize then
    driverInfo.bufferMinSize
  else if targetBufferingLatencyFrames ≥ driverInfo.bufferMaxSize then
    driverInfo.bufferMaxSize
  else
    if driverInfo.bufferGranularity = 0 then
      driverInfo.bufferPreferredSize
    else if driverInfo.bufferGranularity = -1 then
      let result := NextPowerOfTwo targetBufferingLatencyFrames
      let result :=
        if result < driverInfo.bufferMinSize then driverInfo.bufferMinSize
        else result
      if result > driverInfo.bufferMaxSize then driverInfo.bufferMaxSize
      else result
    else
      let g := toULong driverInfo.bufferGranularity
      let n := (targetBufferingLatencyFrames + g - 1) % 2 ^ 32 / g
      let result := n * g % 2 ^ 32
      let result :=
        if result < driverInfo.bufferMinSize then driverInfo.bufferMinSize
        else result
      if result > driverInfo.bufferMaxSize then driverInfo.bufferMaxSize
      else result

/-- Iterative search loop of the power-of-two branch of
`SelectHostBufferSizeForSpecifiedUserFramesPerBuffer`
(pa_asio.cpp lines 1806-1817): `do { if (x % u == 0) { result = x;
if (result >= target) break; } x *= 2; } while (x <= max)`.
The fuel bounds the iteration count; callers supply enough fuel for every
terminating run of the C loop. -/
def selectLoopPowerOfTwo (userFramesPerBuffer targetBufferingLatencyFrames
    bufferMaxSize : Nat) : Nat → Nat → Nat → Nat
  | 0, _x, result => result
  | fuel + 1, x, result =>
    if x % userFramesPerBuffer = 0 ∧ x ≥ targetBufferingLatencyFrames then
      x
    else
      let result := if x % userFramesPerBuffer = 0 then x else result
      let x := x * 2
      if x ≤ bufferMaxSize then
        selectLoopPowerOfTwo userFramesPerBuffer targetBufferingLatencyFrames
          bufferMaxSize fuel x result
      else result

/-- Iterative search loop of the granularity branch of
`SelectHostBufferSizeForSpecifiedUserFramesPerBuffer`
(pa_asio.cpp lines 1829-1840): as the power-of-two loop but stepping by
`x += bufferGranularity`. -/
def selectLoopGranularity (userFramesPerBuffer targetBufferingLatencyFrames
    bufferMaxSize granularity : Nat) : Nat → Nat → Nat → Nat
  | 0, _x, result => result
  | fuel + 1, x, result =>
    if x % userFramesPerBuffer = 0 ∧ x ≥ targetBufferingLatencyFrames then
      x
    else
      let result := if x % userFramesPerBuffer = 0 then x else result
      let x := x + granularity
      if x ≤ bufferMaxSize then
        selectLoopGranularity userFramesPerBuffer targetBufferingLatencyFrames
          bufferMaxSize granularity fuel x result
      else result

/-- `SelectHostBufferSizeForSpecifiedUserFramesPerBuffer`
(pa_asio.cpp lines 1770-1844): searches the device's candidate buffer sizes
for multiples of the user frame count, preferring the first multiple at or
above the target latency, falling back to the largest multiple below it,
and returning 0 when no multiple exists. -/
def SelectHostBufferSizeForSpecifiedUserFramesPerBuffer
    (targetBufferingLatencyFrames userFramesPerBuffer : Nat)
    (driverInfo : PaAsioDriverInfo) : Nat :=
  if driverInfo.bufferGranularity = 0 then
    if driverInfo.bufferPreferredSize % userFramesPerBuffer = 0 then
      driverInfo.bufferPreferredSize
    else 0
  else if driverInfo.bufferGranularity = -1 then
    selectLoopPowerOfTwo userFramesPerBuffer targetBufferingLatencyFrames
      driverInfo.bufferMaxSize (driverInfo.bufferMaxSize + 33)
      driverInfo.bufferMinSize 0
  else
    selectLoopGranularity userFramesPerBuffer targetBufferingLatencyFrames
      driverInfo.bufferMaxSize (toULong driverInfo.bufferGranularity)
      (driverInfo.bufferMaxSize + 33) driverInfo.bufferMinSize 0

/-- `SelectHostBufferSize` (pa_asio.cpp lines 1847-1866), the entry point
used by `OpenStream`: the WinUAE patch discards both parameters and always
returns the driver's preferred buffer size. -/
def SelectHostBufferSize (targetBufferingLatencyFrames userFramesPerBuffer :
    Nat) (driverInfo : PaAsioDriverInfo) : Nat :=
  let _ := targetBufferingLatencyFrames
  let _ := userFramesPerBuffer
  driverInfo.bufferPreferredSize

/-- Verdict of a buffer-processing cycle, as produced by
`PaUtil_EndBufferProcessing` (the user callback's continue/complete/abort
verdict, or `paComplete` when the stream is already stopping). -/
inductive PaCallbackResult where
  | paContinue
  | paComplete
  | paAbort
deriving DecidableEq, Repr

/-- The fields of `PaAsioStream` (pa_asio.cpp lines 1590-1642) read or
written by the real-time buffer-exchange path and the lifecycle
operations, plus observability instrumentation:
`finishedCallbackInvocations` counts calls of the user's stream-finished
callback, `processedCycles` counts buffer-processor passes (user-callback
processing), and `lastCallbackStatusFlags` records the status flags most
recently handed to `PaUtil_BeginBufferProcessing`. Hardware output buffer
contents are `outputHwBuffers0`/`outputHwBuffers1`, one sample list per
ASIO output channel (dummy channels first), for double-buffer slots 0/1. -/
structure PaAsioStreamState where
  inputChannelCount : Nat
  outputChannelCount : Nat
  outputChannelOffset : Nat
  framesPerHostCallback : Nat
  stopProcessing : Bool
  zeroOutput : Bool
  stopPlayoutCount : Nat
  isStopped : Nat
  isActive : Nat
  streamFinishedCallbackCalled : Bool
  hasStreamFinishedCallback : Bool
  hasBlockingState : Bool
  finishedCallbackInvocations : Nat
  completedBuffersPlayedEventSet : Bool
  reenterCount : Int
  reenterError : Nat
  callbackFlags : Nat
  outputHwBuffers0 : List (List Int)
  outputHwBuffers1 : List (List Int)
  processedCycles : Nat
  lastCallbackStatusFlags : Nat
deriving DecidableEq, Repr

/-- `memset(buffer, 0, framesPerHostCallback * bytesPerSample)`: a zeroed
hardware channel buffer. -/
def zeroBuffer (frames : Nat) : List Int := List.replicate frames 0

/-- The zeroing loop shared by both branches of `ZeroOutputBuffers`:
`for (i = 0; i < k; ++i) memset(buffer_i, 0, ...)` zeroes the first `k`
channel buffers and leaves the rest untouched. -/
def zeroFirstBuffers (frames k : Nat) (bufs : List (List Int)) :
    List (List Int) :=
  match k, bufs with
  | 0, bufs => bufs
  | _ + 1, [] => []
  | k + 1, _b :: rest => zeroBuffer frames :: zeroFirstBuffers frames k rest

/-- `ZeroOutputBuffers` (pa_asio.cpp lines 1647-1686): when `zeroOutput` is
not yet set (stream start) it zeroes all `outputChannelOffset +
outputChannelCount` output buffers of the given double-buffer slot; when
`zeroOutput` is set (a silence cycle) it zeroes only the first
`outputChannelOffset` dummy buffers, preserving the audio channels. -/
def ZeroOutputBuffers (stream : PaAsioStreamState) (index : Nat) :
    PaAsioStreamState :=
  let dummyBufferCount := stream.outputChannelOffset
  let bufs := if index = 0 then stream.outputHwBuffers0
              else stream.outputHwBuffers1
  let newBufs :=
    if stream.zeroOutput = false then
      let totalOutputBuffers :=
        stream.outputChannelOffset + stream.outputChannelCount
      zeroFirstBuffers stream.framesPerHostCallback totalOutputBuffers bufs
    else
      zeroFirstBuffers stream.framesPerHostCallback dummyBufferCount bufs
  if index = 0 then { stream with outputHwBuffers0 := newBufs }
  else { stream with outputHwBuffers1 := newBufs }

/-- The `zeroOutput` branch of `bufferSwitchTimeInfo`
(pa_asio.cpp lines 3053-3077): zero the buffers, then while
`stopProcessing` holds advance `stopPlayoutCount`; when it reaches 2 mark
the stream inactive, invoke the stream-finished callback, record that it
was called, and set the completion event. -/
def bufferSwitchDrainPhase (s : PaAsioStreamState) (index : Nat) :
    PaAsioStreamState :=
  let s := ZeroOutputBuffers s index
  if s.stopProcessing then
    if s.stopPlayoutCount < 2 then
      let s := { s with stopPlayoutCount := s.stopPlayoutCount + 1 }
      if s.stopPlayoutCount = 2 then
        { s with
          isActive := 0
          finishedCallbackInvocations := s.finishedCallbackInvocations +
            (if s.hasStreamFinishedCallback then 1 else 0)
          streamFinishedCallbackCalled := true
          completedBuffersPlayedEventSet := true }
      else s
    else s
  else s

/-- The normal processing branch of `bufferSwitchTimeInfo`
(pa_asio.cpp lines 3125-3237): convert input, hand the accumulated status
flags to the buffer processor and reset them, run the buffer-processing
pass (whose verdict is `paComplete` when `stopProcessing` is already set,
otherwise the user callback's verdict `userCallbackResult`), convert
output, then act on the verdict: `paAbort` finishes playback immediately,
`paComplete` requests a drain and, if the buffer processor's output is
already empty, enters the silence phase with a reset playout counter. -/
def bufferSwitchProcessPhase (s : PaAsioStreamState)
    (userCallbackResult : PaCallbackResult)
    (bufferProcessorOutputEmpty : Bool) : PaAsioStreamState :=
  let callbackResult :=
    if s.stopProcessing then PaCallbackResult.paComplete
    else userCallbackResult
  let s := { s with
    lastCallbackStatusFlags := s.callbackFlags
    callbackFlags := 0
    processedCycles := s.processedCycles + 1 }
  match callbackResult with
  | .paContinue => s
  | .paAbort =>
    { s with
      isActive := 0
      finishedCallbackInvocations := s.finishedCallbackInvocations +
        (if s.hasStreamFinishedCallback then 1 else 0)
      streamFinishedCallbackCalled := true
      completedBuffersPlayedEventSet := true
      zeroOutput := true }
  | .paComplete =>
    let s := { s with stopProcessing := true }
    if bufferProcessorOutputEmpty then
      { s with zeroOutput := true, stopPlayoutCount := 0 }
    else s

/-- One iteration of the `do { ... } while(PaAsio_AtomicDecrement(...) >= 0)`
body of `bufferSwitchTimeInfo` (pa_asio.cpp lines 3038-3242): a reentered
buffer (`buffersDone > 0`) only merges the input-overflow and
output-underflow flags (each only if that direction has channels); the
first buffer is processed through the silence or normal branch. -/
def bufferSwitchBody (s : PaAsioStreamState) (buffersDone index : Nat)
    (userCallbackResult : PaCallbackResult)
    (bufferProcessorOutputEmpty : Bool) : PaAsioStreamState :=
  if buffersDone > 0 then
    let f := if s.inputChannelCount > 0 then s.callbackFlags ||| paInputOverflow
             else s.callbackFlags
    let f := if s.outputChannelCount > 0 then f ||| paOutputUnderflow else f
    { s with callbackFlags := f }
  else
    if s.zeroOutput then bufferSwitchDrainPhase s index
    else bufferSwitchProcessPhase s userCallbackResult
      bufferProcessorOutputEmpty

/-- The combined status-flag contribution of a missed (reentered) buffer
cycle: input overflow when the stream has input channels, output underflow
when it has output channels (pa_asio.cpp lines 3045-3049). -/
def flagsMask (inputChannelCount outputChannelCount : Nat) : Nat :=
  (if inputChannelCount > 0 then paInputOverflow else 0) |||
    (if outputChannelCount > 0 then paOutputUnderflow else 0)

/-- Runs `iterations` passes of the `bufferSwitchTimeInfo` loop body,
incrementing `buffersDone` after each pass. -/
def bufferSwitchLoopIter : Nat → Nat → PaAsioStreamState → Nat →
    PaCallbackResult → Bool → PaAsioStreamState
  | 0, _buffersDone, s, _index, _cb, _outEmpty => s
  | n + 1, buffersDone, s, index, cb, outEmpty =>
    bufferSwitchLoopIter n (buffersDone + 1)
      (bufferSwitchBody s buffersDone index cb outEmpty) index cb outEmpty

/-- `bufferSwitchTimeInfo` (pa_asio.cpp lines 3025-3245) for a non-null
stream. `PaAsio_AtomicIncrement` raises `reenterCount`; a non-zero result
means this invocation is nested inside a still-executing one, and it
returns after only bumping `reenterError`. Otherwise `nestedArrivals` is
the number of nested invocations that arrive while this outer invocation
runs: each of those bumps the counter and the error tally and returns
(their net effect is timing-independent because every such call takes the
early-return branch), and the outer invocation's decrement loop then runs
`nestedArrivals + 1` body passes, leaving the counter at -1. -/
def bufferSwitchTimeInfo (s : PaAsioStreamState) (nestedArrivals index : Nat)
    (userCallbackResult : PaCallbackResult)
    (bufferProcessorOutputEmpty : Bool) : PaAsioStreamState :=
  let s1 := { s with reenterCount := s.reenterCount + 1 }
  if s1.reenterCount ≠ 0 then
    { s1 with reenterError := s1.reenterError + 1 }
  else
    let s2 := { s1 with
      reenterCount := s1.reenterCount + nestedArrivals
      reenterError := s1.reenterError + nestedArrivals }
    let s3 := bufferSwitchLoopIter (nestedArrivals + 1) 0 s2 index
      userCallbackResult bufferProcessorOutputEmpty
    { s3 with reenterCount := -1 }

/-- The output-zeroing and state-reset prefix of `StartStream`
(pa_asio.cpp lines 3348-3375 and 3432-3435): zero both double-buffer slots
of the output channels, reset the stop/drain machinery, the reentrancy
counters, the status flags and the completion event, and mark the stream
running. -/
def StartStream (s : PaAsioStreamState) : PaAsioStreamState :=
  let s :=
    if s.outputChannelCount > 0 then ZeroOutputBuffers (ZeroOutputBuffers s 0) 1
    else s
  { s with
    stopProcessing := false
    zeroOutput := false
    reenterCount := -1
    reenterError := 0
    callbackFlags := 0
    completedBuffersPlayedEventSet := false
    isStopped := 0
    isActive := 1
    streamFinishedCallbackCalled := false }

/-- Outcome of a `WaitForSingleObject` call. -/
inductive WaitResult where
  | signaled
  | timedOut
  | failed
deriving DecidableEq, Repr

/-- `StopStream` (pa_asio.cpp lines 3464-3538). If the stream is active:
with blocking output, request a flush and wait (a failed wait maps to
`paUnanticipatedHostError`, a timed-out one to `paTimedOut`); set
`stopProcessing`; wait for the completion event, ignoring that wait's
result (`_drainWaitResult` — the timeout branch body is empty in the
source). Then `ASIOStop` (failure overwrites the result with
`paUnanticipatedHostError`), mark the stream stopped and inactive, and
invoke the stream-finished callback unless the real-time path already
called it. -/
def StopStream (s : PaAsioStreamState) (flushWaitResult : WaitResult)
    (_drainWaitResult : WaitResult) (asioStopFails : Bool) :
    PaAsioStreamState × PaError :=
  let resultAndState :=
    if s.isActive ≠ 0 then
      let result :=
        if s.hasBlockingState = true ∧ s.outputChannelCount ≠ 0 then
          match flushWaitResult with
          | .failed => PaError.paUnanticipatedHostError
          | .timedOut => PaError.paTimedOut
          | .signaled => PaError.paNoError
        else PaError.paNoError
      ({ s with stopProcessing := true }, result)
    else (s, PaError.paNoError)
  let s := resultAndState.1
  let result := if asioStopFails then PaError.paUnanticipatedHostError
                else resultAndState.2
  let s := { s with isStopped := 1, isActive := 0 }
  let s :=
    if s.streamFinishedCallbackCalled = false then
      if s.hasStreamFinishedCallback then
        { s with finishedCallbackInvocations :=
            s.finishedCallbackInvocations + 1 }
      else s
    else s
  (s, result)

/-- `IsStreamStopped` (pa_asio.cpp lines 3573-3578): returns the stream's
`isStopped` field. -/
def IsStreamStopped (s : PaAsioStreamState) : Nat := s.isStopped

/-- `IsStreamActive` (pa_asio.cpp lines 3581-3586): returns the stream's
`isActive` field. -/
def IsStreamActive (s : PaAsioStreamState) : Nat := s.isActive

/-- The output-channel-offset computation of `OpenStream`
(pa_asio.cpp lines 2258-2271): force an offset of 2 (output on ASIO
channels 2/3) and allocate `outputChannelCount + 2` ASIO output channels,
falling back to offset 0 when the device does not report enough output
channels. Returns `(outputChannelOffset, totalAsioOutputChannels)`. -/
def computeOutputChannelSetup (outputChannelCount
    deviceOutputChannelCount : Nat) : Nat × Nat :=
  let outputChannelOffset := 2
  let totalAsioOutputChannels := outputChannelCount + outputChannelOffset
  if totalAsioOutputChannels > deviceOutputChannelCount then
    (0, outputChannelCount)
  else (outputChannelOffset, totalAsioOutputChannels)

/-- The logical→hardware output channel map built by `OpenStream`
(pa_asio.cpp lines 2490-2501): `outputChannelMap[i] = outputChannelOffset
+ i`. -/
def outputChannelMap (outputChannelOffset outputChannelCount : Nat) :
    List Nat :=
  (List.range outputChannelCount).map (fun i => outputChannelOffset + i)

/-- The `channelNum` assignment of the output `ASIOBufferInfo` records
(pa_asio.cpp lines 2327-2333): buffer `i` is bound to hardware channel
`i`, for all channels including the dummies. -/
def outputChannelNums (totalAsioOutputChannels : Nat) : List Nat :=
  List.range totalAsioOutputChannels

/-- Modelled from the spec: the Ring Buffer Transport (spec section 4.3) —
pa_ringbuffer.c is not part of src/. A single-producer single-consumer
FIFO of frames with a fixed capacity; `data` is the queued content in
order. -/
structure PaUtilRingBuffer where
  data : List Int
  bufferSize : Nat
deriving DecidableEq, Repr

/-- Modelled from the spec: `PaUtil_GetRingBufferReadAvailable` — the number
of frames queued for reading. -/
def PaUtil_GetRingBufferReadAvailable (rb : PaUtilRingBuffer) : Nat :=
  rb.data.length

/-- Modelled from the spec: `PaUtil_GetRingBufferWriteAvailable` — the free
space in frames. -/
def PaUtil_GetRingBufferWriteAvailable (rb : PaUtilRingBuffer) : Nat :=
  rb.bufferSize - rb.data.length

/-- Modelled from the spec: `PaUtil_ReadRingBuffer` — dequeues up to `n`
frames and returns them with the updated buffer. -/
def PaUtil_ReadRingBuffer (rb : PaUtilRingBuffer) (n : Nat) :
    List Int × PaUtilRingBuffer :=
  (rb.data.take n, { rb with data := rb.data.drop n })

/-- Modelled from the spec: `PaUtil_WriteRingBuffer` — enqueues up to `n`
frames from `xs`, saturating at the free space, and never blocks. -/
def PaUtil_WriteRingBuffer (rb : PaUtilRingBuffer) (xs : List Int)
    (n : Nat) : PaUtilRingBuffer :=
  { rb with data :=
      rb.data ++ (xs.take n).take (PaUtil_GetRingBufferWriteAvailable rb) }

/-- Modelled from the spec: `PaUtil_AdvanceRingBufferReadIndex` — discards
the `n` oldest queued frames. -/
def PaUtil_AdvanceRingBufferReadIndex (rb : PaUtilRingBuffer) (n : Nat) :
    PaUtilRingBuffer :=
  { rb with data := rb.data.drop n }

/-- Modelled from the spec: `PaUtil_FlushRingBuffer` — resets the buffer to
empty. -/
def PaUtil_FlushRingBuffer (rb : PaUtilRingBuffer) : PaUtilRingBuffer :=
  { rb with data := [] }

/-- The fields of `PaAsioStreamBlockingState` (pa_asio.cpp lines 1516-1587)
used by the blocking-i/o callback and the Read/Write operations; the two
auto-reset events are modelled by their set/unset state. -/
structure PaAsioStreamBlockingState where
  writeRingBuffer : PaUtilRingBuffer
  readRingBuffer : PaUtilRingBuffer
  outputUnderflowFlag : Bool
  inputOverflowFlag : Bool
  stopFlag : Bool
  writeBuffersRequestedFlag : Bool
  readFramesRequestedFlag : Bool
  writeBuffersRequested : Nat
  readFramesRequested : Nat
  writeBuffersReadyEventSet : Bool
  readFramesReadyEventSet : Bool
deriving DecidableEq, Repr

/-- The output section of `BlockingIoPaCallback`
(pa_asio.cpp lines 3985-4032): drain one `framesPerBuffer`-sized block from
the write ring buffer into the hardware output, or zero-fill the output
and flag an underflow when not enough is queued (when stopping, the
remaining queued frames are drained into the start of the zeroed output);
then signal a satisfied Write request. Returns the updated blocking state
and the hardware output block (empty when the stream has no output
channels, whose buffer the source never touches). -/
def BlockingIoOutputSection (outputChannelCount : Nat)
    (bs : PaAsioStreamBlockingState) (framesPerBuffer statusFlags : Nat) :
    PaAsioStreamBlockingState × List Int :=
  if outputChannelCount ≠ 0 then
    let bs :=
      if statusFlags &&& paOutputUnderflow ≠ 0 then
        { bs with outputUnderflowFlag := true }
      else bs
    let pRb := bs.writeRingBuffer
    let afterData :=
      if PaUtil_GetRingBufferReadAvailable pRb ≥ framesPerBuffer then
        let rd := PaUtil_ReadRingBuffer pRb framesPerBuffer
        ({ bs with writeRingBuffer := rd.2 }, rd.1)
      else
        let bs := { bs with outputUnderflowFlag := true }
        let out := List.replicate framesPerBuffer 0
        if bs.stopFlag = true ∧
            PaUtil_GetRingBufferReadAvailable pRb < framesPerBuffer then
          let avail := PaUtil_GetRingBufferReadAvailable pRb
          let rd := PaUtil_ReadRingBuffer pRb avail
          ({ bs with writeRingBuffer := rd.2 },
            rd.1 ++ List.replicate (framesPerBuffer - avail) 0)
        else (bs, out)
    let bs := afterData.1
    let bs :=
      if bs.writeBuffersRequestedFlag = true ∧
          PaUtil_GetRingBufferWriteAvailable bs.writeRingBuffer ≥
            bs.writeBuffersRequested then
        { bs with
          writeBuffersRequestedFlag := false
          writeBuffersRequested := 0
          writeBuffersReadyEventSet := true }
      else bs
    (bs, afterData.2)
  else (bs, [])

/-- The input section of `BlockingIoPaCallback`
(pa_asio.cpp lines 4034-4071): flag an overflow and discard the oldest
block when the read ring buffer lacks space, then append the current
input block and signal a satisfied Read request. -/
def BlockingIoInputSection (inputChannelCount : Nat)
    (bs : PaAsioStreamBlockingState) (inputBuffer : List Int)
    (framesPerBuffer statusFlags : Nat) : PaAsioStreamBlockingState :=
  if inputChannelCount ≠ 0 then
    let bs :=
      if statusFlags &&& paInputOverflow ≠ 0 then
        { bs with inputOverflowFlag := true }
      else bs
    let bs :=
      if PaUtil_GetRingBufferWriteAvailable bs.readRingBuffer <
          framesPerBuffer then
        let bs := { bs with inputOverflowFlag := true }
        { bs with readRingBuffer :=
            (PaUtil_AdvanceRingBufferReadIndex bs.readRingBuffer
              framesPerBuffer) }
      else bs
    let bs := { bs with readRingBuffer :=
        (PaUtil_WriteRingBuffer bs.readRingBuffer inputBuffer
          framesPerBuffer) }
    if bs.readFramesRequestedFlag = true ∧
        PaUtil_GetRingBufferReadAvailable bs.readRingBuffer ≥
          bs.readFramesRequested then
      { bs with
        readFramesRequestedFlag := false
        readFramesRequested := 0
        readFramesReadyEventSet := true }
    else bs
  else bs

/-- `BlockingIoPaCallback` (pa_asio.cpp lines 3970-4074). One hardware
cycle of the blocking-i/o bridge: the output section runs first, then the
input section on the resulting state, exactly as the two blocks of the
source function execute in sequence. A frame is modelled as one list
element; `statusFlags` carries the PortAudio callback flags of this
cycle. Returns the updated blocking state and the hardware output
block. -/
def BlockingIoPaCallback (inputChannelCount outputChannelCount : Nat)
    (bs : PaAsioStreamBlockingState) (inputBuffer : List Int)
    (framesPerBuffer statusFlags : Nat) :
    PaAsioStreamBlockingState × List Int :=
  let outStep := BlockingIoOutputSection outputChannelCount bs
    framesPerBuffer statusFlags
  (BlockingIoInputSection inputChannelCount outStep.1 inputBuffer
    framesPerBuffer statusFlags, outStep.2)

/-- Scheduling oracle for one `WaitForSingleObject` call inside
ReadStream/WriteStream: either the wait fails outright, or the awaited
event is signaled `ms` milliseconds after the wait starts. -/
inductive WaitSpec where
  | fails
  | signaledAfter (ms : Nat)
deriving DecidableEq, Repr

/-- Result of `WaitForSingleObject` with the given timeout under a
`WaitSpec` schedule: signaled within the timeout, timed out, or failed. -/
def WaitForSingleObjectResult (w : WaitSpec) (timeout : Nat) : WaitResult :=
  match w with
  | .fails => .failed
  | .signaledAfter ms => if ms > timeout then .timedOut else .signaled

/-- One scheduled wake-up of a blocked Read/Write call: the wait outcome,
the value of the stop flag at that moment (it may have been set
concurrently by `StopStream`), and the frames the real-time callback
published to (Read) or consumed from (Write) the ring buffer meanwhile. -/
structure WaitEvent where
  wait : WaitSpec
  stopFlagNow : Bool
  arrived : List Int
  freedFrames : Nat
deriving DecidableEq, Repr

/-- The block-processing loop of `ReadStream` (pa_asio.cpp lines 3669-3758):
each pass handles `min framesPerUserBuffer remaining` frames; when the read
ring buffer holds fewer, it requests frames and waits — a failed wait
returns `paUnanticipatedHostError`, a timed-out wait returns
`paStreamIsStopped` when the stop flag has been raised, else `paTimedOut`;
a signaled wait delivers the frames the callback published. After the
final pass a pending input-overflow flag turns into `paInputOverflowed`.
The fuel only bounds the recursion; callers pass `frames + 1` which is
enough for every terminating run. -/
def ReadStreamLoop (framesPerUserBuffer timeout : Nat) :
    Nat → PaAsioStreamBlockingState → Nat → List WaitEvent → PaError
  | 0, _bs, _remaining, _waits => PaError.paNoError
  | fuel + 1, bs, remaining, waits =>
    let lFramesPerBlock := min framesPerUserBuffer remaining
    let step :=
      if PaUtil_GetRingBufferReadAvailable bs.readRingBuffer <
          lFramesPerBlock then
        match waits with
        | [] => Sum.inl PaError.paUnanticipatedHostError
        | w :: rest =>
          match WaitForSingleObjectResult w.wait timeout with
          | .failed => Sum.inl PaError.paUnanticipatedHostError
          | .timedOut =>
            if w.stopFlagNow then Sum.inl PaError.paStreamIsStopped
            else Sum.inl PaError.paTimedOut
          | .signaled =>
            Sum.inr ({ bs with
              stopFlag := w.stopFlagNow
              readRingBuffer := PaUtil_WriteRingBuffer bs.readRingBuffer
                w.arrived w.arrived.length }, rest)
      else Sum.inr (bs, waits)
    match step with
    | Sum.inl err => err
    | Sum.inr bw =>
      let bs := bw.1
      let bs := { bs with readRingBuffer :=
          (PaUtil_AdvanceRingBufferReadIndex bs.readRingBuffer
            lFramesPerBlock) }
      let remaining := remaining - lFramesPerBlock
      if remaining = 0 then
        if bs.inputOverflowFlag then PaError.paInputOverflowed
        else PaError.paNoError
      else ReadStreamLoop framesPerUserBuffer timeout fuel bs remaining bw.2

/-- `ReadStream` (pa_asio.cpp lines 3611-3776): fails immediately with
`paStreamIsStopped` when the blocking stop flag is set or the stream is
not active; rejects output-only streams; otherwise reads `frames` frames
through the block loop with a wait timeout of
`8 * framesPerUserBuffer * 1000 / sampleRate` milliseconds (the time of
eight user data blocks). -/
def ReadStream (isActive inputChannelCount framesPerUserBuffer
    sampleRate : Nat) (bs : PaAsioStreamBlockingState) (frames : Nat)
    (waits : List WaitEvent) : PaError :=
  let timeout := 8 * framesPerUserBuffer * 1000 / sampleRate
  if bs.stopFlag = true ∨ isActive = 0 then PaError.paStreamIsStopped
  else if inputChannelCount ≠ 0 then
    ReadStreamLoop framesPerUserBuffer timeout (frames + 1) bs frames waits
  else PaError.paCanNotReadFromAnOutputOnlyStream

/-- The block-processing loop of `WriteStream`
(pa_asio.cpp lines 3837-3931), mirror image of `ReadStreamLoop`: each pass
enqueues `min framesPerUserBuffer remaining` frames of `userData` into the
write ring buffer, waiting for free space when necessary (same error
mapping as the read loop; a signaled wait reflects frames consumed by the
callback). After the final pass a pending output-underflow flag turns
into `paOutputUnderflowed`. -/
def WriteStreamLoop (framesPerUserBuffer timeout : Nat) :
    Nat → PaAsioStreamBlockingState → List Int → Nat → List WaitEvent →
      PaError
  | 0, _bs, _userData, _remaining, _waits => PaError.paNoError
  | fuel + 1, bs, userData, remaining, waits =>
    let lFramesPerBlock := min framesPerUserBuffer remaining
    let step :=
      if PaUtil_GetRingBufferWriteAvailable bs.writeRingBuffer <
          lFramesPerBlock then
        match waits with
        | [] => Sum.inl PaError.paUnanticipatedHostError
        | w :: rest =>
          match WaitForSingleObjectResult w.wait timeout with
          | .failed => Sum.inl PaError.paUnanticipatedHostError
          | .timedOut =>
            if w.stopFlagNow then Sum.inl PaError.paStreamIsStopped
            else Sum.inl PaError.paTimedOut
          | .signaled =>
            Sum.inr ({ bs with
              stopFlag := w.stopFlagNow
              writeRingBuffer := PaUtil_AdvanceRingBufferReadIndex
                bs.writeRingBuffer w.freedFrames }, rest)
      else Sum.inr (bs, waits)
    match step with
    | Sum.inl err => err
    | Sum.inr bw =>
      let bs := bw.1
      let bs := { bs with writeRingBuffer :=
          (PaUtil_WriteRingBuffer bs.writeRingBuffer userData
            lFramesPerBlock) }
      let userData := userData.drop lFramesPerBlock
      let remaining := remaining - lFramesPerBlock
      if remaining = 0 then
        if bs.outputUnderflowFlag then PaError.paOutputUnderflowed
        else PaError.paNoError
      else WriteStreamLoop framesPerUserBuffer timeout fuel bs userData
        remaining bw.2

/-- `WriteStream` (pa_asio.cpp lines 3778-3944): fails immediately with
`paStreamIsStopped` when the blocking stop flag is set or the stream is
not active; rejects input-only streams; otherwise writes `frames` frames
through the block loop with the same eight-block wait timeout as
`ReadStream`. -/
def WriteStream (isActive outputChannelCount framesPerUserBuffer
    sampleRate : Nat) (bs : PaAsioStreamBlockingState) (userData : List Int)
    (frames : Nat) (waits : List WaitEvent) : PaError :=
  let timeout := 8 * framesPerUserBuffer * 1000 / sampleRate
  if bs.stopFlag = true ∨ isActive = 0 then PaError.paStreamIsStopped
  else if outputChannelCount ≠ 0 then
    WriteStreamLoop framesPerUserBuffer timeout (frames + 1) bs userData
      frames waits
  else PaError.paCanNotWriteToAnInputOnlyStream

/-- The process-wide part of `PaAsioHostApiRepresentation`
(pa_asio.cpp lines 290-306): `openAsioDeviceIndex` is `none`
(`paNoDevice`) when no device is open and the open device's index
otherwise. -/
structure PaAsioHostApiState where
  openAsioDeviceIndex : Option Nat
deriving DecidableEq, Repr

/-- The single-open-device discipline of `OpenStream`
(pa_asio.cpp lines 2044-2052 and 2816): when a device is already open the
call fails with `paDeviceUnavailable` before touching any state; every
other failure path (`restOfOpenSucceeds = false`, representing the
validation/allocation/driver steps) unwinds without touching the marker;
on success the marker is set to the opened device. -/
def OpenStreamGuard (h : PaAsioHostApiState) (asioDeviceIndex : Nat)
    (restOfOpenSucceeds : Bool) : PaAsioHostApiState × PaError :=
  if h.openAsioDeviceIndex ≠ none then (h, PaError.paDeviceUnavailable)
  else if restOfOpenSucceeds then
    ({ openAsioDeviceIndex := some asioDeviceIndex }, PaError.paNoError)
  else (h, PaError.paInsufficientMemory)

/-- The marker release of `CloseStream` (pa_asio.cpp line 2895):
`openAsioDeviceIndex = paNoDevice`. -/
def CloseStreamGuard (_h : PaAsioHostApiState) : PaAsioHostApiState :=
  { openAsioDeviceIndex := none }

/-! ## Helper lemmas -/

theorem clampRange (lo hi r : Nat) (hlohi : lo ≤ hi) :
    lo ≤ (if (if r < lo then lo else r) > hi then hi
          else (if r < lo then lo else r)) ∧
    (if (if r < lo then lo else r) > hi then hi
     else (if r < lo then lo else r)) ≤ hi := by
  by_cases h : r < lo
  · simp only [h, if_true]
    split <;> omega
  · simp only [h, if_false]
    split <;> omega

theorem testBit_0xFF00 (j : Nat) :
    Nat.testBit 65280 j = (decide (8 ≤ j) && decide (j - 8 < 8)) := by
  rw [(by decide : (65280 : Nat) = (2 ^ 8 - 1) <<< 8),
    Nat.testBit_shiftLeft, Nat.testBit_two_pow_sub_one]

theorem testBit_0xFF0000 (j : Nat) :
    Nat.testBit 16711680 j = (decide (16 ≤ j) && decide (j - 16 < 8)) := by
  rw [(by decide : (16711680 : Nat) = (2 ^ 8 - 1) <<< 16),
    Nat.testBit_shiftLeft, Nat.testBit_two_pow_sub_one]

theorem testBit_ge_of_lt {x n j : Nat} (h : x < 2 ^ n) (hj : n ≤ j) :
    Nat.testBit x j = false :=
  Nat.testBit_lt_two_pow
    (lt_of_lt_of_le h (Nat.pow_le_pow_right (by norm_num) hj))

theorem lor_eq_add_of_and_eq_zero :
    ∀ (a b : Nat), a &&& b = 0 → a ||| b = a + b := by
  intro a
  induction a using Nat.binaryRec with
  | z =>
    intro b _
    simp
  | f abit a' ih =>
    intro b
    induction b using Nat.binaryRec with
    | z =>
      intro _
      simp
    | f bbit b' _ =>
      intro hb
      rw [Nat.land_bit, Nat.bit_eq_zero_iff] at hb
      rw [Nat.lor_bit, ih b' hb.1, Nat.bit_val, Nat.bit_val, Nat.bit_val]
      have h2 := hb.2
      cases abit <;> cases bbit <;> simp_all <;> omega

theorem and_eq_zero_of_lt_of_mod_eq_zero (u v k : Nat) (hu : u < 2 ^ k)
    (hv : v % 2 ^ k = 0) : u &&& v = 0 := by
  apply Nat.eq_of_testBit_eq
  intro j
  rw [Nat.testBit_and, Nat.zero_testBit]
  rcases Nat.lt_or_ge j k with hj | hj
  · obtain ⟨m, hm⟩ := Nat.dvd_of_mod_eq_zero hv
    have hsh : (2 ^ k * m : Nat) = m <<< k := by
      rw [Nat.shiftLeft_eq, Nat.mul_comm]
    rw [hm, hsh, Nat.testBit_shiftLeft]
    simp [Nat.not_le.mpr hj]
  · rw [testBit_ge_of_lt hu hj]
    simp

theorem and_0xFF00 (y : Nat) : y &&& 65280 = y / 256 % 256 * 256 := by
  apply Nat.eq_of_testBit_eq
  intro j
  rw [Nat.testBit_and, testBit_0xFF00]
  have hr : y / 256 % 256 * 256 = ((y >>> 8) % 2 ^ 8) <<< 8 := by
    rw [Nat.shiftLeft_eq, Nat.shiftRight_eq_div_pow]
    norm_num
  rw [hr, Nat.testBit_shiftLeft, Nat.testBit_mod_two_pow,
    Nat.testBit_shiftRight]
  by_cases h8 : 8 ≤ j
  · have he : 8 + (j - 8) = j := by omega
    simp [h8, he, Bool.and_comm]
  · simp [h8]

theorem and_0xFF0000 (y : Nat) :
    y &&& 16711680 = y / 65536 % 256 * 65536 := by
  apply Nat.eq_of_testBit_eq
  intro j
  rw [Nat.testBit_and, testBit_0xFF0000]
  have hr : y / 65536 % 256 * 65536 = ((y >>> 16) % 2 ^ 8) <<< 16 := by
    rw [Nat.shiftLeft_eq, Nat.shiftRight_eq_div_pow]
    norm_num
  rw [hr, Nat.testBit_shiftLeft, Nat.testBit_mod_two_pow,
    Nat.testBit_shiftRight]
  by_cases h16 : 16 ≤ j
  · have he : 16 + (j - 16) = j := by omega
    simp [h16, he, Bool.and_comm]
  · simp [h16]

theorem Swap16sample_lt (x : Nat) : Swap16sample x < 2 ^ 16 :=
  Nat.mod_lt _ (by norm_num)

theorem Swap32sample_lt (x : Nat) (h : x < 2 ^ 32) :
    Swap32sample x < 2 ^ 32 := by
  unfold Swap32sample
  apply Nat.or_lt_two_pow
  · apply Nat.or_lt_two_pow
    · apply Nat.or_lt_two_pow
      · have : x >>> 24 < 2 ^ 8 := by
          rw [Nat.shiftRight_eq_div_pow]
          omega
        omega
      · exact Nat.and_lt_two_pow _ (by norm_num)
    · exact Nat.and_lt_two_pow _ (by norm_num)
  · exact Nat.mod_lt _ (by norm_num)

theorem Swap16sample_eq (x : Nat) (h : x < 2 ^ 16) :
    Swap16sample x = x % 256 * 256 + x / 256 := by
  unfold Swap16sample
  have e1 : x <<< 8 = x * 256 := by rw [Nat.shiftLeft_eq]
  have e2 : x >>> 8 = x / 256 := by rw [Nat.shiftRight_eq_div_pow]
  have hdisj : x / 256 &&& x * 256 = 0 :=
    and_eq_zero_of_lt_of_mod_eq_zero _ _ 8 (by omega) (by omega)
  rw [e1, e2, Nat.lor_comm, lor_eq_add_of_and_eq_zero _ _ hdisj]
  have h16 : (2 : Nat) ^ 16 = 65536 := rfl
  rw [h16]
  omega

theorem Swap16sample_invol (x : Nat) (h : x < 2 ^ 16) :
    Swap16sample (Swap16sample x) = x := by
  rw [Swap16sample_eq (Swap16sample x) (Swap16sample_lt x),
    Swap16sample_eq x h]
  have h16 : (2 : Nat) ^ 16 = 65536 := rfl
  rw [h16] at h
  omega

theorem Swap32sample_eq (x : Nat) (h : x < 2 ^ 32) :
    Swap32sample x = x / 16777216 + x / 65536 % 256 * 256 +
      x / 256 % 256 * 65536 + x % 256 * 16777216 := by
  unfold Swap32sample
  have e1 : x >>> 24 = x / 16777216 := by rw [Nat.shiftRight_eq_div_pow]
  have e2 : x >>> 8 = x / 256 := by rw [Nat.shiftRight_eq_div_pow]
  have e3 : x <<< 8 = x * 256 := by rw [Nat.shiftLeft_eq]
  have e4 : x <<< 24 = x * 16777216 := by rw [Nat.shiftLeft_eq]
  have h32 : (2 : Nat) ^ 32 = 4294967296 := rfl
  rw [e1, e2, e3, e4, h32, and_0xFF00 (x / 256), and_0xFF0000 (x * 256)]
  rw [h32] at h
  have hab : x / 16777216 &&& x / 256 / 256 % 256 * 256 = 0 :=
    and_eq_zero_of_lt_of_mod_eq_zero _ _ 8 (by omega) (by omega)
  rw [lor_eq_add_of_and_eq_zero _ _ hab]
  have habc : x / 16777216 + x / 256 / 256 % 256 * 256 &&&
      x * 256 / 65536 % 256 * 65536 = 0 :=
    and_eq_zero_of_lt_of_mod_eq_zero _ _ 16 (by omega) (by omega)
  rw [lor_eq_add_of_and_eq_zero _ _ habc]
  have habcd : x / 16777216 + x / 256 / 256 % 256 * 256 +
      x * 256 / 65536 % 256 * 65536 &&& x * 16777216 % 4294967296 = 0 :=
    and_eq_zero_of_lt_of_mod_eq_zero _ _ 24 (by omega) (by omega)
  rw [lor_eq_add_of_and_eq_zero _ _ habcd]
  omega

theorem Swap32sample_digits (d0 d1 d2 d3 : Nat) (h0 : d0 < 256)
    (h1 : d1 < 256) (h2 : d2 < 256) (h3 : d3 < 256) :
    Swap32sample (d0 + 256 * d1 + 65536 * d2 + 16777216 * d3) =
      d3 + 256 * d2 + 65536 * d1 + 16777216 * d0 := by
  rw [Swap32sample_eq _ (by omega)]
  have q0 : (d0 + 256 * d1 + 65536 * d2 + 16777216 * d3) % 256 = d0 := by
    omega
  have q1 : (d0 + 256 * d1 + 65536 * d2 + 16777216 * d3) / 256 =
      d1 + 256 * d2 + 65536 * d3 := by omega
  have q2 : (d0 + 256 * d1 + 65536 * d2 + 16777216 * d3) / 65536 =
      d2 + 256 * d3 := by omega
  have q3 : (d0 + 256 * d1 + 65536 * d2 + 16777216 * d3) / 16777216 = d3 := by
    omega
  rw [q0, q1, q2, q3]
  have r1 : (d2 + 256 * d3) % 256 = d2 := by omega
  have r2 : (d1 + 256 * d2 + 65536 * d3) % 256 = d1 := by omega
  rw [r1, r2]
  ring

theorem Swap32sample_invol (x : Nat) (h : x < 2 ^ 32) :
    Swap32sample (Swap32sample x) = x := by
  obtain ⟨d0, d1, d2, d3, rfl, h0, h1, h2, h3⟩ :
      ∃ d0 d1 d2 d3, x = d0 + 256 * d1 + 65536 * d2 + 16777216 * d3 ∧
        d0 < 256 ∧ d1 < 256 ∧ d2 < 256 ∧ d3 < 256 :=
    ⟨x % 256, x / 256 % 256, x / 65536 % 256, x / 16777216,
      by omega, by omega, by omega, by omega⟩
  rw [Swap32sample_digits d0 d1 d2 d3 h0 h1 h2 h3,
    Swap32sample_digits d3 d2 d1 d0 h3 h2 h1 h0]

theorem Swap24buffer_invol : ∀ l : List Nat, Swap24buffer (Swap24buffer l) = l
  | [] => rfl
  | [_a] => rfl
  | [_a, _b] => rfl
  | _a :: _b :: _c :: rest => by
    simp only [Swap24buffer]
    rw [Swap24buffer_invol rest]

theorem shiftLeft_mod_shiftRight_cancel (s x : Nat) (h : x < 2 ^ (32 - s))
    (hs : s ≤ 32) : ((x <<< s) % 2 ^ 32) >>> s = x := by
  rw [Nat.shiftLeft_eq, Nat.shiftRight_eq_div_pow]
  have hx : x * 2 ^ s < 2 ^ 32 := by
    have h1 : x * 2 ^ s < 2 ^ (32 - s) * 2 ^ s :=
      Nat.mul_lt_mul_of_lt_of_le h (le_refl _) (Nat.two_pow_pos s)
    have h2 : 2 ^ (32 - s) * 2 ^ s = 2 ^ 32 := by
      rw [← pow_add]
      congr 1
      omega
    omega
  rw [Nat.mod_eq_of_lt hx, Nat.mul_div_cancel x (Nat.two_pow_pos s)]

theorem ShiftLeft32_roundtrip (s x : Nat) (h : x < 2 ^ (32 - s))
    (hs : s ≤ 32) :
    ShiftRight32sample s (ShiftLeft32sample s x) = x := by
  unfold ShiftRight32sample ShiftLeft32sample
  exact shiftLeft_mod_shiftRight_cancel s x h hs

theorem SwapShiftLeft32_roundtrip (s x : Nat) (h32 : x < 2 ^ 32)
    (h : Swap32sample x < 2 ^ (32 - s)) (hs : s ≤ 32) :
    ShiftRightSwap32sample s (SwapShiftLeft32sample s x) = x := by
  unfold ShiftRightSwap32sample SwapShiftLeft32sample
  rw [shiftLeft_mod_shiftRight_cancel s _ h hs]
  exact Swap32sample_invol x h32

theorem map_involutive_of_mem {α : Type} (f g : α → α) (l : List α)
    (h : ∀ x ∈ l, g (f x) = x) : (l.map f).map g = l := by
  induction l with
  | nil => rfl
  | cons a r ih =>
    simp only [List.map_cons]
    rw [h a (List.mem_cons_self a r), ih fun x hx => h x
      (List.mem_cons_of_mem a hx)]

/-! ## Claim theorems -/

/-- Claim C5: for all device limits with min ≤ preferred ≤ max and every
target latency in frames, `SelectHostBufferSizeForUnspecifiedUserFramesPerBuffer`
(the unconstrained-mode negotiator) returns a value in [min, max]
inclusive. -/
theorem claim_C5_unconstrained_negotiator_in_range
    (targetBufferingLatencyFrames : Nat) (d : PaAsioDriverInfo)
    (h1 : d.bufferMinSize ≤ d.bufferPreferredSize)
    (h2 : d.bufferPreferredSize ≤ d.bufferMaxSize) :
    d.bufferMinSize ≤
      SelectHostBufferSizeForUnspecifiedUserFramesPerBuffer
        targetBufferingLatencyFrames d ∧
    SelectHostBufferSizeForUnspecifiedUserFramesPerBuffer
        targetBufferingLatencyFrames d ≤ d.bufferMaxSize := by
  unfold SelectHostBufferSizeForUnspecifiedUserFramesPerBuffer
  dsimp only
  by_cases hlo : targetBufferingLatencyFrames ≤ d.bufferMinSize
  · simp only [hlo, if_true]
    omega
  · simp only [hlo, if_false]
    by_cases hhi : targetBufferingLatencyFrames ≥ d.bufferMaxSize
    · simp only [hhi, if_true]
      omega
    · simp only [hhi, if_false]
      by_cases hg0 : d.bufferGranularity = 0
      · simp only [hg0, if_true]
        omega
      · simp only [hg0, if_false]
        by_cases hg1 : d.bufferGranularity = -1
        · simp only [hg1, if_true]
          exact clampRange _ _ _ (le_trans h1 h2)
        · simp only [hg1, if_false]
          exact clampRange _ _ _ (le_trans h1 h2)

/-- Witness for claim C5 at a concrete device: min 64, max 8192,
preferred 256, power-of-two granularity, target 1000. -/
theorem claim_C5_unconstrained_negotiator_in_range_witness :
    (64 : Nat) ≤
      SelectHostBufferSizeForUnspecifiedUserFramesPerBuffer 1000
        ⟨64, 8192, 256, -1⟩ ∧
    SelectHostBufferSizeForUnspecifiedUserFramesPerBuffer 1000
        ⟨64, 8192, 256, -1⟩ ≤ 8192 :=
  claim_C5_unconstrained_negotiator_in_range 1000 ⟨64, 8192, 256, -1⟩
    (by decide) (by decide)

/-- Claim C3 counterexample: with device limits min 64, max 8192,
preferred 256, power-of-two granularity, user block size 128 and target
latency 128 frames, the entry point `SelectHostBufferSize` invoked at open
returns 256, although 128 is a power-of-two candidate inside [min, max]
that is a multiple of the user block size and ≥ the target (and the next
smaller candidate, 64, is not a multiple), so the claimed "smallest such
candidate" result would be 128 — as the search helper
`SelectHostBufferSizeForSpecifiedUserFramesPerBuffer` indeed computes. -/
theorem claim_C3_counterexample_entry_point_ignores_search :
    SelectHostBufferSize 128 128 ⟨64, 8192, 256, -1⟩ = 256 ∧
    SelectHostBufferSizeForSpecifiedUserFramesPerBuffer 128 128
      ⟨64, 8192, 256, -1⟩ = 128 ∧
    (64 : Nat) ≤ 128 ∧ (128 : Nat) ≤ 8192 ∧ 128 % 128 = 0 ∧
    (128 : Nat) ≥ 128 ∧ 64 % 128 ≠ 0 ∧ (256 : Nat) ≠ 128 := by
  refine ⟨rfl, ?_, by decide, by decide, by decide, by decide, by decide,
    by decide⟩
  decide

/-- Claim C3 (amended): the host buffer size negotiation entry point invoked
at open always returns the driver's preferred buffer size, regardless of
the target latency and the user block size. -/
theorem claim_C3_amended_entry_point_returns_preferred
    (targetBufferingLatencyFrames userFramesPerBuffer : Nat)
    (d : PaAsioDriverInfo) :
    SelectHostBufferSize targetBufferingLatencyFrames userFramesPerBuffer d =
      d.bufferPreferredSize := rfl

/-- Claim C10: after `StopStream` returns — for every combination of
flush-wait outcome, drain-wait outcome and driver-stop failure — the
stream is marked stopped and not active (`IsStreamStopped` returns 1 and
`IsStreamActive` returns 0), and the stream-finished callback is invoked
exactly when the real-time path has not already called it (and a callback
is installed). -/
theorem claim_C10_stop_stream_always_marks_stopped
    (s : PaAsioStreamState) (flushWaitResult drainWaitResult : WaitResult)
    (asioStopFails : Bool) :
    (StopStream s flushWaitResult drainWaitResult asioStopFails).1.isStopped
        = 1 ∧
    (StopStream s flushWaitResult drainWaitResult asioStopFails).1.isActive
        = 0 ∧
    IsStreamStopped
        (StopStream s flushWaitResult drainWaitResult asioStopFails).1 = 1 ∧
    IsStreamActive
        (StopStream s flushWaitResult drainWaitResult asioStopFails).1 = 0 ∧
    (StopStream s flushWaitResult drainWaitResult
          asioStopFails).1.finishedCallbackInvocations =
      s.finishedCallbackInvocations +
        (if s.streamFinishedCallbackCalled = false ∧
            s.hasStreamFinishedCallback = true then 1 else 0) := by
  unfold StopStream IsStreamStopped IsStreamActive
  dsimp only
  repeat' split
  all_goals simp_all

/-- Claim C9: at most one stream is bound to the driver at any time —
`OpenStream` fails with `paDeviceUnavailable` and leaves the state
untouched whenever the process-wide open-device marker is set, a
successful open sets the marker, `CloseStream` clears it, and between a
successful open and the matching close every further open attempt fails
without modifying any state. -/
theorem claim_C9_single_open_device_marker :
    (∀ (h : PaAsioHostApiState) (i : Nat) (b : Bool),
        h.openAsioDeviceIndex ≠ none →
        OpenStreamGuard h i b = (h, PaError.paDeviceUnavailable)) ∧
    (∀ (h : PaAsioHostApiState) (i : Nat),
        h.openAsioDeviceIndex = none →
        (OpenStreamGuard h i true).1.openAsioDeviceIndex = some i ∧
        (OpenStreamGuard h i true).2 = PaError.paNoError) ∧
    (∀ h : PaAsioHostApiState,
        (CloseStreamGuard h).openAsioDeviceIndex = none) ∧
    (∀ (h1 : PaAsioHostApiState) (d : Nat),
        h1.openAsioDeviceIndex = some d →
        ∀ attempts : List (Nat × Bool),
          attempts.foldl (fun st p => (OpenStreamGuard st p.1 p.2).1) h1
              = h1 ∧
          ∀ p ∈ attempts,
            (OpenStreamGuard h1 p.1 p.2).2 = PaError.paDeviceUnavailable) := by
  have hfail : ∀ (h : PaAsioHostApiState) (i : Nat) (b : Bool),
      h.openAsioDeviceIndex ≠ none →
      OpenStreamGuard h i b = (h, PaError.paDeviceUnavailable) := by
    intro h i b hne
    unfold OpenStreamGuard
    simp [hne]
  refine ⟨hfail, ?_, ?_, ?_⟩
  · intro h i hnone
    unfold OpenStreamGuard
    simp [hnone]
  · intro h
    rfl
  · intro h1 d hsome attempts
    constructor
    · induction attempts with
      | nil => rfl
      | cons p rest ih =>
        have hstep : (OpenStreamGuard h1 p.1 p.2).1 = h1 := by
          rw [hfail h1 p.1 p.2 (by rw [hsome]; exact Option.some_ne_none d)]
        simpa [hstep] using ih
    · intro p _hp
      rw [hfail h1 p.1 p.2 (by rw [hsome]; exact Option.some_ne_none d)]

/-- Witness for claim C9: the marker discipline evaluated at concrete
states — an open attempt against an occupied marker fails without change,
a fresh open sets the marker, close clears it, and two further attempts
while device 2 is open leave the state fixed. -/
theorem claim_C9_single_open_device_marker_witness :
    OpenStreamGuard ⟨some 3⟩ 5 true = (⟨some 3⟩, PaError.paDeviceUnavailable) ∧
    (OpenStreamGuard ⟨none⟩ 2 true).1.openAsioDeviceIndex = some 2 ∧
    (CloseStreamGuard ⟨some 2⟩).openAsioDeviceIndex = none ∧
    List.foldl (fun st p => (OpenStreamGuard st p.1 p.2).1) ⟨some 2⟩
        [(4, true), (7, false)] = ⟨some 2⟩ :=
  ⟨claim_C9_single_open_device_marker.1 ⟨some 3⟩ 5 true (by decide),
   (claim_C9_single_open_device_marker.2.1 ⟨none⟩ 2 rfl).1,
   claim_C9_single_open_device_marker.2.2.1 ⟨some 2⟩,
   (claim_C9_single_open_device_marker.2.2.2 ⟨some 2⟩ 2 rfl
      [(4, true), (7, false)]).1⟩

/-- Claim C6 counterexample: for the integer format `ASIOSTInt32LSB16`
(16 significant bits right-aligned in 32, shift 16) the sample `65536`
— whose bit 16 lies outside the shifted-out range the converters preserve
— does not survive the hardware→canonical→hardware round trip: the left
shift by 16 discards it and the buffer comes back as `[0]`. -/
theorem claim_C6_counterexample_shift_loses_high_bits :
    asioRoundTrip .ASIOSTInt32LSB16 [65536] = some [0] ∧
    some [(0 : Nat)] ≠ some [65536] := ⟨rfl, by decide⟩

/-- Claim C6 (amended): for every supported integer hardware format,
applying the selected hardware→canonical converter (with its shift) and
then the selected canonical→hardware converter recovers the original bit
pattern of every sample exactly, provided each sample's unused alignment
bits are zero — i.e. each sample satisfies `integerSampleExact` (always
true for the unshifted 16/24/32-bit formats; for the shifted
32-bit-container formats it requires the value, after byte-order
normalization for MSB formats, to fit in the significant `32 - shift`
bits). -/
theorem claim_C6_amended_integer_roundtrip_exact (t : ASIOSampleType)
    (ht : isIntegerFormat t = true) (buffer : List Nat)
    (hbuf : ∀ x ∈ buffer, integerSampleExact t x = true) :
    asioRoundTrip t buffer = some buffer := by
  cases t with
  | ASIOSTFloat32MSB => simp [isIntegerFormat] at ht
  | ASIOSTFloat32LSB => simp [isIntegerFormat] at ht
  | ASIOSTFloat64MSB => simp [isIntegerFormat] at ht
  | ASIOSTFloat64LSB => simp [isIntegerFormat] at ht
  | ASIOSTInt16MSB =>
    show some ((buffer.map Swap16sample).map Swap16sample) = some buffer
    rw [map_involutive_of_mem _ _ buffer fun x hx =>
      Swap16sample_invol x (of_decide_eq_true (hbuf x hx))]
  | ASIOSTInt16LSB => rfl
  | ASIOSTInt24MSB =>
    show some (Swap24buffer (Swap24buffer buffer)) = some buffer
    rw [Swap24buffer_invol buffer]
  | ASIOSTInt24LSB => rfl
  | ASIOSTInt32MSB =>
    show some ((buffer.map Swap32sample).map Swap32sample) = some buffer
    rw [map_involutive_of_mem _ _ buffer fun x hx =>
      Swap32sample_invol x (of_decide_eq_true (hbuf x hx))]
  | ASIOSTInt32LSB => rfl
  | ASIOSTInt32MSB16 =>
    show some ((buffer.map (SwapShiftLeft32sample 16)).map
      (ShiftRightSwap32sample 16)) = some buffer
    rw [map_involutive_of_mem _ _ buffer fun x hx => by
      have hb := hbuf x hx
      rw [integerSampleExact, Bool.and_eq_true] at hb
      exact SwapShiftLeft32_roundtrip 16 x (of_decide_eq_true hb.1)
        (of_decide_eq_true hb.2) (by norm_num)]
  | ASIOSTInt32MSB18 =>
    show some ((buffer.map (SwapShiftLeft32sample 14)).map
      (ShiftRightSwap32sample 14)) = some buffer
    rw [map_involutive_of_mem _ _ buffer fun x hx => by
      have hb := hbuf x hx
      rw [integerSampleExact, Bool.and_eq_true] at hb
      exact SwapShiftLeft32_roundtrip 14 x (of_decide_eq_true hb.1)
        (of_decide_eq_true hb.2) (by norm_num)]
  | ASIOSTInt32MSB20 =>
    show some ((buffer.map (SwapShiftLeft32sample 12)).map
      (ShiftRightSwap32sample 12)) = some buffer
    rw [map_involutive_of_mem _ _ buffer fun x hx => by
      have hb := hbuf x hx
      rw [integerSampleExact, Bool.and_eq_true] at hb
      exact SwapShiftLeft32_roundtrip 12 x (of_decide_eq_true hb.1)
        (of_decide_eq_true hb.2) (by norm_num)]
  | ASIOSTInt32MSB24 =>
    show some ((buffer.map (SwapShiftLeft32sample 8)).map
      (ShiftRightSwap32sample 8)) = some buffer
    rw [map_involutive_of_mem _ _ buffer fun x hx => by
      have hb := hbuf x hx
      rw [integerSampleExact, Bool.and_eq_true] at hb
      exact SwapShiftLeft32_roundtrip 8 x (of_decide_eq_true hb.1)
        (of_decide_eq_true hb.2) (by norm_num)]
  | ASIOSTInt32LSB16 =>
    show some ((buffer.map (ShiftLeft32sample 16)).map
      (ShiftRight32sample 16)) = some buffer
    rw [map_involutive_of_mem _ _ buffer fun x hx =>
      ShiftLeft32_roundtrip 16 x (of_decide_eq_true (hbuf x hx))
        (by norm_num)]
  | ASIOSTInt32LSB18 =>
    show some ((buffer.map (ShiftLeft32sample 14)).map
      (ShiftRight32sample 14)) = some buffer
    rw [map_involutive_of_mem _ _ buffer fun x hx =>
      ShiftLeft32_roundtrip 14 x (of_decide_eq_true (hbuf x hx))
        (by norm_num)]
  | ASIOSTInt32LSB20 =>
    show some ((buffer.map (ShiftLeft32sample 12)).map
      (ShiftRight32sample 12)) = some buffer
    rw [map_involutive_of_mem _ _ buffer fun x hx =>
      ShiftLeft32_roundtrip 12 x (of_decide_eq_true (hbuf x hx))
        (by norm_num)]
  | ASIOSTInt32LSB24 =>
    show some ((buffer.map (ShiftLeft32sample 8)).map
      (ShiftRight32sample 8)) = some buffer
    rw [map_involutive_of_mem _ _ buffer fun x hx =>
      ShiftLeft32_roundtrip 8 x (of_decide_eq_true (hbuf x hx))
        (by norm_num)]

/-- Witness for the amended claim C6: round trips at concrete buffers —
`ASIOSTInt32LSB16` with in-range samples, and `ASIOSTInt32MSB16` with a
sample whose byte-swapped value 4660 fits in 16 bits. -/
theorem claim_C6_amended_integer_roundtrip_exact_witness :
    asioRoundTrip .ASIOSTInt32LSB16 [32768, 0, 65535] =
      some [32768, 0, 65535] ∧
    asioRoundTrip .ASIOSTInt32MSB16 [873594880] = some [873594880] :=
  ⟨claim_C6_amended_integer_roundtrip_exact .ASIOSTInt32LSB16 rfl
      [32768, 0, 65535] (by decide),
   claim_C6_amended_integer_roundtrip_exact .ASIOSTInt32MSB16 rfl
      [873594880] (by decide)⟩

theorem bufferSwitchBody_flags (s : PaAsioStreamState) (bd idx : Nat)
    (hbd : 0 < bd) (cb : PaCallbackResult) (oe : Bool) :
    bufferSwitchBody s bd idx cb oe =
      { s with callbackFlags := (s.callbackFlags |||
          flagsMask s.inputChannelCount s.outputChannelCount) } := by
  unfold bufferSwitchBody flagsMask
  rw [if_pos hbd]
  by_cases hin : s.inputChannelCount > 0 <;>
    by_cases hout : s.outputChannelCount > 0 <;>
      simp [hin, hout, Nat.lor_assoc]

theorem bufferSwitchLoopIter_succ (k bd : Nat) (s : PaAsioStreamState)
    (idx : Nat) (cb : PaCallbackResult) (oe : Bool) :
    bufferSwitchLoopIter (k + 1) bd s idx cb oe =
      bufferSwitchLoopIter k (bd + 1) (bufferSwitchBody s bd idx cb oe) idx
        cb oe := rfl

theorem bufferSwitchLoopIter_flags (k : Nat) : ∀ (bd : Nat), 0 < bd →
    ∀ (s : PaAsioStreamState) (idx : Nat) (cb : PaCallbackResult)
      (oe : Bool),
    bufferSwitchLoopIter k bd s idx cb oe =
      if k = 0 then s
      else { s with callbackFlags := (s.callbackFlags |||
          flagsMask s.inputChannelCount s.outputChannelCount) } := by
  induction k with
  | zero =>
    intro bd _ s idx cb oe
    rfl
  | succ k ih =>
    intro bd hbd s idx cb oe
    rw [bufferSwitchLoopIter_succ]
    rw [bufferSwitchBody_flags s bd idx hbd cb oe]
    rw [ih (bd + 1) (by omega) _ idx cb oe]
    by_cases hk : k = 0
    · simp [hk]
    · rw [if_neg hk, if_neg (by omega : ¬ k + 1 = 0)]
      simp [Nat.lor_assoc]

/-- Claim C1 counterexample: a concrete draining stream (stopProcessing and
zeroOutput set, output channel offset 0) whose hardware output buffer
holds the nonzero sample 3; the next buffer-exchange cycle advances the
silent-playout counter but does not zero-fill the output — the buffer
still reads `[[3]]`, not `[[0]]` — contradicting the claim that the
callback zero-fills the output during the two drain cycles. -/
theorem claim_C1_counterexample_drain_cycle_not_zero_filled :
    (bufferSwitchTimeInfo
        { inputChannelCount := 0, outputChannelCount := 1
          outputChannelOffset := 0, framesPerHostCallback := 1
          stopProcessing := true, zeroOutput := true, stopPlayoutCount := 0
          isStopped := 0, isActive := 1
          streamFinishedCallbackCalled := false
          hasStreamFinishedCallback := true, hasBlockingState := false
          finishedCallbackInvocations := 0
          completedBuffersPlayedEventSet := false, reenterCount := -1
          reenterError := 0, callbackFlags := 0
          outputHwBuffers0 := [[3]], outputHwBuffers1 := [[3]]
          processedCycles := 0, lastCallbackStatusFlags := 0 }
        0 0 .paContinue false).outputHwBuffers0 = [[3]] ∧
    (bufferSwitchTimeInfo
        { inputChannelCount := 0, outputChannelCount := 1
          outputChannelOffset := 0, framesPerHostCallback := 1
          stopProcessing := true, zeroOutput := true, stopPlayoutCount := 0
          isStopped := 0, isActive := 1
          streamFinishedCallbackCalled := false
          hasStreamFinishedCallback := true, hasBlockingState := false
          finishedCallbackInvocations := 0
          completedBuffersPlayedEventSet := false, reenterCount := -1
          reenterError := 0, callbackFlags := 0
          outputHwBuffers0 := [[3]], outputHwBuffers1 := [[3]]
          processedCycles := 0, lastCallbackStatusFlags := 0 }
        0 0 .paContinue false).stopPlayoutCount = 1 ∧
    ([[3]] : List (List Int)) ≠ [[0]] := by
  refine ⟨?_, ?_, by decide⟩ <;> decide

/-- Claim C1 (amended): once the stream is draining with `stopProcessing`
and `zeroOutput` both set, each buffer-exchange cycle runs the
output-zeroing routine — which zeroes only the first `outputChannelOffset`
dummy channel buffers of the active double-buffer slot and leaves the
logical audio channels untouched — for exactly two further consecutive
cycles before marking the stream inactive; on the second cycle it sets the
completion signal and invokes the stream-finished notification exactly
once, and the stream is never marked inactive while fewer than two such
cycles have completed (after the first cycle it is still active); a third
cycle invokes no further notification. -/
theorem claim_C1_amended_drain_two_cycles_then_stop
    (inCh outCh off frames re cf pc lf : Nat) (fc hb : Bool)
    (bufs0 bufs1 : List (List Int)) (cb : PaCallbackResult) (oe : Bool) :
    let s0 : PaAsioStreamState :=
      { inputChannelCount := inCh, outputChannelCount := outCh
        outputChannelOffset := off, framesPerHostCallback := frames
        stopProcessing := true, zeroOutput := true, stopPlayoutCount := 0
        isStopped := 0, isActive := 1, streamFinishedCallbackCalled := fc
        hasStreamFinishedCallback := true, hasBlockingState := hb
        finishedCallbackInvocations := 0
        completedBuffersPlayedEventSet := false, reenterCount := -1
        reenterError := re, callbackFlags := cf
        outputHwBuffers0 := bufs0, outputHwBuffers1 := bufs1
        processedCycles := pc, lastCallbackStatusFlags := lf }
    let t1 := bufferSwitchTimeInfo s0 0 0 cb oe
    let t2 := bufferSwitchTimeInfo t1 0 1 cb oe
    let t3 := bufferSwitchTimeInfo t2 0 0 cb oe
    t1.isActive = 1 ∧ t1.stopPlayoutCount = 1 ∧
    t1.finishedCallbackInvocations = 0 ∧
    t1.completedBuffersPlayedEventSet = false ∧
    t1.outputHwBuffers0 = zeroFirstBuffers frames off bufs0 ∧
    t1.outputHwBuffers1 = bufs1 ∧
    t2.isActive = 0 ∧ t2.stopPlayoutCount = 2 ∧
    t2.finishedCallbackInvocations = 1 ∧
    t2.completedBuffersPlayedEventSet = true ∧
    t2.streamFinishedCallbackCalled = true ∧
    t2.outputHwBuffers1 = zeroFirstBuffers frames off bufs1 ∧
    t3.finishedCallbackInvocations = 1 ∧ t3.isActive = 0 ∧
    t3.stopPlayoutCount = 2 := by
  simp only [bufferSwitchTimeInfo, bufferSwitchLoopIter, bufferSwitchBody,
    bufferSwitchDrainPhase, ZeroOutputBuffers]
  norm_num

/-- Claim C2: an invocation of the buffer-exchange callback that arrives
while a previous invocation is still executing (reentrancy counter ≥ 0
before its increment) returns after bumping only the counters — no buffer
is converted, no user-callback processing pass runs, no flag or buffer
changes; the missed cycle is instead handled by the outer invocation's
loop, which runs exactly one processing pass and leaves the
input-overflow/output-underflow mask — each bit set only when the
corresponding direction has channels — armed in `callbackFlags`; the next
normal cycle then hands exactly that mask to the user callback. -/
theorem claim_C2_reentrant_cycle_processed_once_with_flags
    (k n : Nat) (inCh outCh off frames re cf pc lf : Nat) (hb : Bool)
    (bufs0 bufs1 : List (List Int)) (idx idx2 : Nat)
    (cb : PaCallbackResult) (oe oe2 : Bool) :
    let nested : PaAsioStreamState :=
      { inputChannelCount := inCh, outputChannelCount := outCh
        outputChannelOffset := off, framesPerHostCallback := frames
        stopProcessing := false, zeroOutput := false, stopPlayoutCount := 0
        isStopped := 0, isActive := 1, streamFinishedCallbackCalled := false
        hasStreamFinishedCallback := true, hasBlockingState := hb
        finishedCallbackInvocations := 0
        completedBuffersPlayedEventSet := false, reenterCount := (k : Int)
        reenterError := re, callbackFlags := cf
        outputHwBuffers0 := bufs0, outputHwBuffers1 := bufs1
        processedCycles := pc, lastCallbackStatusFlags := lf }
    let rn := bufferSwitchTimeInfo nested n idx cb oe
    let outer : PaAsioStreamState :=
      { inputChannelCount := inCh, outputChannelCount := outCh
        outputChannelOffset := off, framesPerHostCallback := frames
        stopProcessing := false, zeroOutput := false, stopPlayoutCount := 0
        isStopped := 0, isActive := 1, streamFinishedCallbackCalled := false
        hasStreamFinishedCallback := true, hasBlockingState := hb
        finishedCallbackInvocations := 0
        completedBuffersPlayedEventSet := false, reenterCount := -1
        reenterError := re, callbackFlags := cf
        outputHwBuffers0 := bufs0, outputHwBuffers1 := bufs1
        processedCycles := pc, lastCallbackStatusFlags := lf }
    let ro := bufferSwitchTimeInfo outer (n + 1) idx .paContinue oe
    let r2 := bufferSwitchTimeInfo ro 0 idx2 .paContinue oe2
    (rn.processedCycles = pc ∧ rn.callbackFlags = cf ∧
      rn.outputHwBuffers0 = bufs0 ∧ rn.outputHwBuffers1 = bufs1 ∧
      rn.lastCallbackStatusFlags = lf ∧
      rn.reenterError = re + 1 ∧ rn.reenterCount = (k : Int) + 1) ∧
    (ro.processedCycles = pc + 1 ∧
      ro.callbackFlags = flagsMask inCh outCh ∧
      ro.lastCallbackStatusFlags = cf ∧
      ro.reenterError = re + (n + 1)) ∧
    r2.lastCallbackStatusFlags = flagsMask inCh outCh := by
  have hro : bufferSwitchTimeInfo
      { inputChannelCount := inCh, outputChannelCount := outCh
        outputChannelOffset := off, framesPerHostCallback := frames
        stopProcessing := false, zeroOutput := false, stopPlayoutCount := 0
        isStopped := 0, isActive := 1, streamFinishedCallbackCalled := false
        hasStreamFinishedCallback := true, hasBlockingState := hb
        finishedCallbackInvocations := 0
        completedBuffersPlayedEventSet := false, reenterCount := -1
        reenterError := re, callbackFlags := cf
        outputHwBuffers0 := bufs0, outputHwBuffers1 := bufs1
        processedCycles := pc, lastCallbackStatusFlags := lf }
      (n + 1) idx .paContinue oe =
      { inputChannelCount := inCh, outputChannelCount := outCh
        outputChannelOffset := off, framesPerHostCallback := frames
        stopProcessing := false, zeroOutput := false, stopPlayoutCount := 0
        isStopped := 0, isActive := 1, streamFinishedCallbackCalled := false
        hasStreamFinishedCallback := true, hasBlockingState := hb
        finishedCallbackInvocations := 0
        completedBuffersPlayedEventSet := false, reenterCount := -1
        reenterError := re + (n + 1), callbackFlags := flagsMask inCh outCh
        outputHwBuffers0 := bufs0, outputHwBuffers1 := bufs1
        processedCycles := pc + 1, lastCallbackStatusFlags := cf } := by
    simp only [bufferSwitchTimeInfo]
    norm_num
    rw [bufferSwitchLoopIter_succ,
      bufferSwitchLoopIter_flags (n + 1) 1 (by omega)]
    simp [bufferSwitchBody, bufferSwitchProcessPhase]
  refine ⟨?_, ?_, ?_⟩
  · have hne : (k : Int) + 1 ≠ 0 := by omega
    simp [bufferSwitchTimeInfo, hne]
  · rw [hro]
    exact ⟨rfl, rfl, rfl, rfl⟩
  · rw [hro]
    simp only [bufferSwitchTimeInfo]
    norm_num
    rw [bufferSwitchLoopIter_succ]
    simp [bufferSwitchLoopIter, bufferSwitchBody, bufferSwitchProcessPhase]

theorem zeroFirstBuffers_length_le (f : Nat) :
    ∀ (l : List (List Int)) (k : Nat), l.length ≤ k →
      zeroFirstBuffers f k l = List.replicate l.length (zeroBuffer f) := by
  intro l
  induction l with
  | nil =>
    intro k _
    cases k <;> rfl
  | cons a rest ih =>
    intro k hk
    cases k with
    | zero => simp at hk
    | succ k2 =>
      simp only [zeroFirstBuffers, List.length_cons, List.replicate]
      rw [ih k2 (by simpa using hk)]

theorem getD_range_map (f : Nat → Nat) (n i : Nat) (h : i < n) :
    ((List.range n).map f).getD i 0 = f i := by
  rw [List.getD_eq_getElem?_getD, List.getElem?_map, List.getElem?_range h]
  rfl

theorem getD_range (n j : Nat) (h : j < n) : (List.range n).getD j 0 = j := by
  rw [List.getD_eq_getElem?_getD, List.getElem?_range h]
  rfl

/-- Claim C4: when the device reports at least `outputChannelCount + 2`
output channels, `OpenStream` forces an output channel offset of 2 —
logical output channel `i` is bound to hardware output channel `i + 2`,
and hardware channels 0 and 1 are allocated as dummy channels
(`channelNum = 0, 1`) that are zero-filled at stream start (all output
buffers of both double-buffer slots are zeroed then) and on every
zero-output cycle (the first `outputChannelOffset` buffers of the active
slot); when the device reports fewer channels the offset falls back to 0
and logical channel `i` maps to hardware channel `i`. -/
theorem claim_C4_forced_output_channel_offset :
    (∀ outCh devOut : Nat, outCh + 2 ≤ devOut →
        computeOutputChannelSetup outCh devOut = (2, outCh + 2) ∧
        (∀ i, i < outCh → (outputChannelMap 2 outCh).getD i 0 = i + 2) ∧
        (∀ j, j < outCh + 2 → (outputChannelNums (outCh + 2)).getD j 0 = j)) ∧
    (∀ outCh devOut : Nat, devOut < outCh + 2 →
        computeOutputChannelSetup outCh devOut = (0, outCh) ∧
        (∀ i, i < outCh → (outputChannelMap 0 outCh).getD i 0 = i)) ∧
    (∀ s : PaAsioStreamState, s.zeroOutput = false →
        0 < s.outputChannelCount →
        s.outputHwBuffers0.length ≤
          s.outputChannelOffset + s.outputChannelCount →
        s.outputHwBuffers1.length ≤
          s.outputChannelOffset + s.outputChannelCount →
        (StartStream s).outputHwBuffers0 =
          List.replicate s.outputHwBuffers0.length
            (zeroBuffer s.framesPerHostCallback) ∧
        (StartStream s).outputHwBuffers1 =
          List.replicate s.outputHwBuffers1.length
            (zeroBuffer s.framesPerHostCallback)) ∧
    (∀ (s : PaAsioStreamState) (b0 b1 : List Int) (rest : List (List Int)),
        s.zeroOutput = true → s.outputChannelOffset = 2 →
        s.outputHwBuffers0 = b0 :: b1 :: rest →
        (ZeroOutputBuffers s 0).outputHwBuffers0 =
          zeroBuffer s.framesPerHostCallback ::
            zeroBuffer s.framesPerHostCallback :: rest) := by
  refine ⟨?_, ?_, ?_, ?_⟩
  · intro outCh devOut hge
    refine ⟨?_, ?_, ?_⟩
    · unfold computeOutputChannelSetup
      rw [if_neg (by omega)]
    · intro i hi
      unfold outputChannelMap
      rw [getD_range_map _ outCh i hi]
      omega
    · intro j hj
      unfold outputChannelNums
      exact getD_range _ j hj
  · intro outCh devOut hlt
    refine ⟨?_, ?_⟩
    · unfold computeOutputChannelSetup
      rw [if_pos (by omega)]
    · intro i hi
      unfold outputChannelMap
      rw [getD_range_map _ outCh i hi]
      omega
  · intro s hz hc h0 h1
    unfold StartStream
    rw [if_pos hc]
    unfold ZeroOutputBuffers
    simp [hz]
    constructor
    · rw [zeroFirstBuffers_length_le _ _ _ h0]
    · rw [zeroFirstBuffers_length_le _ _ _ h1]
  · intro s b0 b1 rest hz hoff hb
    unfold ZeroOutputBuffers
    simp [hz, hoff, hb]
    rfl

/-- Witness for claim C4 at concrete values: a 4-channel device with a
2-channel stream gets offset 2 with logical channel 0 on hardware
channel 2; a 3-channel device falls back to offset 0; stream start zeroes
both slots of a concrete stream; and a zero-output cycle zeroes the two
dummy buffers while preserving the audio buffer. -/
theorem claim_C4_forced_output_channel_offset_witness :
    computeOutputChannelSetup 2 4 = (2, 4) ∧
    (outputChannelMap 2 2).getD 0 0 = 2 ∧
    computeOutputChannelSetup 2 3 = (0, 2) ∧
    (StartStream
        { inputChannelCount := 0, outputChannelCount := 2
          outputChannelOffset := 2, framesPerHostCallback := 1
          stopProcessing := false, zeroOutput := false, stopPlayoutCount := 0
          isStopped := 1, isActive := 0
          streamFinishedCallbackCalled := false
          hasStreamFinishedCallback := false, hasBlockingState := false
          finishedCallbackInvocations := 0
          completedBuffersPlayedEventSet := false, reenterCount := -1
          reenterError := 0, callbackFlags := 0
          outputHwBuffers0 := [[5], [6], [7], [8]]
          outputHwBuffers1 := [[5], [6], [7], [8]]
          processedCycles := 0
          lastCallbackStatusFlags := 0 }).outputHwBuffers0 =
      List.replicate 4 (zeroBuffer 1) ∧
    (ZeroOutputBuffers
        { inputChannelCount := 0, outputChannelCount := 1
          outputChannelOffset := 2, framesPerHostCallback := 1
          stopProcessing := true, zeroOutput := true, stopPlayoutCount := 0
          isStopped := 0, isActive := 1
          streamFinishedCallbackCalled := false
          hasStreamFinishedCallback := false, hasBlockingState := false
          finishedCallbackInvocations := 0
          completedBuffersPlayedEventSet := false, reenterCount := -1
          reenterError := 0, callbackFlags := 0
          outputHwBuffers0 := [[5], [6], [7]]
          outputHwBuffers1 := [[5], [6], [7]]
          processedCycles := 0
          lastCallbackStatusFlags := 0 } 0).outputHwBuffers0 =
      zeroBuffer 1 :: zeroBuffer 1 :: [[7]] :=
  ⟨(claim_C4_forced_output_channel_offset.1 2 4 (by decide)).1,
   (claim_C4_forced_output_channel_offset.1 2 4 (by decide)).2.1 0
     (by decide),
   (claim_C4_forced_output_channel_offset.2.1 2 3 (by decide)).1,
   (claim_C4_forced_output_channel_offset.2.2.1 _ rfl (by decide)
     (by decide) (by decide)).1,
   claim_C4_forced_output_channel_offset.2.2.2 _ [5] [6] [[7]] rfl rfl rfl⟩

theorem BlockingIoInputSection_preserves (inCh : Nat)
    (bs : PaAsioStreamBlockingState) (input : List Int)
    (frames flags : Nat) :
    (BlockingIoInputSection inCh bs input frames flags).writeRingBuffer =
      bs.writeRingBuffer ∧
    (BlockingIoInputSection inCh bs input frames flags).outputUnderflowFlag =
      bs.outputUnderflowFlag := by
  unfold BlockingIoInputSection
  dsimp only
  split_ifs <;> exact ⟨rfl, rfl⟩

theorem BlockingIoOutputSection_preserves (outCh : Nat)
    (bs : PaAsioStreamBlockingState) (frames flags : Nat) :
    (BlockingIoOutputSection outCh bs frames flags).1.readRingBuffer =
      bs.readRingBuffer ∧
    (BlockingIoOutputSection outCh bs frames flags).1.inputOverflowFlag =
      bs.inputOverflowFlag := by
  unfold BlockingIoOutputSection
  dsimp only
  split_ifs <;> exact ⟨rfl, rfl⟩

theorem BlockingIoOutputSection_full (outCh : Nat)
    (bs : PaAsioStreamBlockingState) (frames flags : Nat) (hout : outCh ≠ 0)
    (havail : frames ≤ bs.writeRingBuffer.data.length) :
    (BlockingIoOutputSection outCh bs frames flags).2 =
      bs.writeRingBuffer.data.take frames ∧
    (BlockingIoOutputSection outCh bs frames
        flags).1.writeRingBuffer.data =
      bs.writeRingBuffer.data.drop frames := by
  unfold BlockingIoOutputSection
  dsimp only
  split_ifs
  all_goals try dsimp only at *
  all_goals try (exfalso
                 simp only [PaUtil_GetRingBufferReadAvailable, ge_iff_le]
                   at *
                 omega)
  all_goals exact ⟨rfl, rfl⟩

theorem BlockingIoOutputSection_underflow_zero_fill (outCh : Nat)
    (bs : PaAsioStreamBlockingState) (frames flags : Nat) (hout : outCh ≠ 0)
    (havail : bs.writeRingBuffer.data.length < frames)
    (hstop : bs.stopFlag = false) :
    (BlockingIoOutputSection outCh bs frames flags).2 =
      List.replicate frames 0 ∧
    (BlockingIoOutputSection outCh bs frames
        flags).1.outputUnderflowFlag = true := by
  unfold BlockingIoOutputSection
  dsimp only
  split_ifs
  all_goals try dsimp only at *
  all_goals try (exfalso
                 simp_all [hstop, PaUtil_GetRingBufferReadAvailable]
                 try omega
                 done)
  all_goals exact ⟨rfl, rfl⟩

theorem BlockingIoInputSection_overflow_append (inCh : Nat)
    (bs : PaAsioStreamBlockingState) (input : List Int)
    (frames flags : Nat) (hin : inCh ≠ 0) (hlen : input.length = frames)
    (hinv : bs.readRingBuffer.data.length ≤ bs.readRingBuffer.bufferSize)
    (hcap : 2 * frames ≤ bs.readRingBuffer.bufferSize)
    (hfull : bs.readRingBuffer.bufferSize -
      bs.readRingBuffer.data.length < frames) :
    (BlockingIoInputSection inCh bs input frames
        flags).readRingBuffer.data =
      bs.readRingBuffer.data.drop frames ++ input ∧
    (BlockingIoInputSection inCh bs input frames
        flags).inputOverflowFlag = true := by
  have hlenge : frames ≤ bs.readRingBuffer.data.length := by omega
  have htake : input.take frames = input := by
    rw [← hlen, List.take_length]
  unfold BlockingIoInputSection
  dsimp only
  split_ifs
  all_goals try dsimp only at *
  all_goals try (exfalso
                 simp only [PaUtil_GetRingBufferWriteAvailable] at *
                 omega)
  all_goals refine ⟨?_, rfl⟩
  all_goals simp [PaUtil_WriteRingBuffer, PaUtil_AdvanceRingBufferReadIndex,
    PaUtil_GetRingBufferWriteAvailable, htake]
  all_goals omega

theorem BlockingIoInputSection_space_append (inCh : Nat)
    (bs : PaAsioStreamBlockingState) (input : List Int)
    (frames flags : Nat) (hin : inCh ≠ 0) (hlen : input.length = frames)
    (hfree : frames ≤ bs.readRingBuffer.bufferSize -
      bs.readRingBuffer.data.length) :
    (BlockingIoInputSection inCh bs input frames
        flags).readRingBuffer.data =
      bs.readRingBuffer.data ++ input := by
  have htake : input.take frames = input := by
    rw [← hlen, List.take_length]
  unfold BlockingIoInputSection
  dsimp only
  split_ifs
  all_goals try dsimp only at *
  all_goals try (exfalso
                 simp only [PaUtil_GetRingBufferWriteAvailable] at *
                 omega)
  all_goals simp [PaUtil_WriteRingBuffer, PaUtil_AdvanceRingBufferReadIndex,
    PaUtil_GetRingBufferWriteAvailable, htake]
  all_goals omega

/-- Claim C7 counterexample: with the stop flag set and one frame (value 7)
still queued while two frames are needed, the blocking-i/o callback does
not zero-fill the hardware output: it drains the remaining frame into the
start of the output, producing `[7, 0]` instead of `[0, 0]`. -/
theorem claim_C7_counterexample_stop_drains_partial_block :
    (BlockingIoPaCallback 0 1
        { writeRingBuffer := { data := [7], bufferSize := 4 }
          readRingBuffer := { data := [], bufferSize := 4 }
          outputUnderflowFlag := false, inputOverflowFlag := false
          stopFlag := true, writeBuffersRequestedFlag := false
          readFramesRequestedFlag := false, writeBuffersRequested := 0
          readFramesRequested := 0, writeBuffersReadyEventSet := false
          readFramesReadyEventSet := false } [] 2 0).2 = [7, 0] ∧
    ([7, 0] : List Int) ≠ [0, 0] := by
  refine ⟨?_, by decide⟩
  decide

/-- Claim C7 (amended): on every invocation of the fixed blocking-i/o
callback — for output (when the stream has output channels): if the write
ring buffer holds at least `framesPerBuffer` frames, exactly that many
frames are read from it into the hardware output; otherwise the
output-underflow flag is set, and the output is zero-filled except that
with the stop flag set the remaining queued frames are drained into the
start of the zeroed output. For input (when the stream has input
channels): if the read ring buffer lacks free space for one hardware
buffer of frames, the read index is advanced by one hardware buffer
(discarding the oldest frames) and the input-overflow flag is set, after
which the current input block is appended; with enough free space the
input block is simply appended. -/
theorem claim_C7_amended_blocking_io_callback_transport
    (inCh outCh : Nat) (bs : PaAsioStreamBlockingState) (input : List Int)
    (frames statusFlags : Nat) :
    (outCh ≠ 0 →
      frames ≤ PaUtil_GetRingBufferReadAvailable bs.writeRingBuffer →
      (BlockingIoPaCallback inCh outCh bs input frames statusFlags).2 =
        bs.writeRingBuffer.data.take frames ∧
      (BlockingIoPaCallback inCh outCh bs input frames
          statusFlags).1.writeRingBuffer.data =
        bs.writeRingBuffer.data.drop frames) ∧
    (outCh ≠ 0 →
      PaUtil_GetRingBufferReadAvailable bs.writeRingBuffer < frames →
      bs.stopFlag = false →
      (BlockingIoPaCallback inCh outCh bs input frames statusFlags).2 =
        List.replicate frames 0 ∧
      (BlockingIoPaCallback inCh outCh bs input frames
          statusFlags).1.outputUnderflowFlag = true) ∧
    (inCh ≠ 0 → input.length = frames →
      bs.readRingBuffer.data.length ≤ bs.readRingBuffer.bufferSize →
      2 * frames ≤ bs.readRingBuffer.bufferSize →
      (PaUtil_GetRingBufferWriteAvailable bs.readRingBuffer < frames →
        (BlockingIoPaCallback inCh outCh bs input frames
            statusFlags).1.readRingBuffer.data =
          bs.readRingBuffer.data.drop frames ++ input ∧
        (BlockingIoPaCallback inCh outCh bs input frames
            statusFlags).1.inputOverflowFlag = true) ∧
      (frames ≤ PaUtil_GetRingBufferWriteAvailable bs.readRingBuffer →
        (BlockingIoPaCallback inCh outCh bs input frames
            statusFlags).1.readRingBuffer.data =
          bs.readRingBuffer.data ++ input)) := by
  have hcomp1 : (BlockingIoPaCallback inCh outCh bs input frames
      statusFlags).1 = BlockingIoInputSection inCh
        (BlockingIoOutputSection outCh bs frames statusFlags).1 input
        frames statusFlags := rfl
  have hcomp2 : (BlockingIoPaCallback inCh outCh bs input frames
      statusFlags).2 = (BlockingIoOutputSection outCh bs frames
        statusFlags).2 := rfl
  have hopres := BlockingIoOutputSection_preserves outCh bs frames
    statusFlags
  have hipres := BlockingIoInputSection_preserves inCh
    (BlockingIoOutputSection outCh bs frames statusFlags).1 input frames
    statusFlags
  refine ⟨?_, ?_, ?_⟩
  · intro hout havail
    simp only [PaUtil_GetRingBufferReadAvailable] at havail
    have hfull := BlockingIoOutputSection_full outCh bs frames statusFlags
      hout havail
    refine ⟨?_, ?_⟩
    · rw [hcomp2]
      exact hfull.1
    · rw [hcomp1, hipres.1, hfull.2]
  · intro hout havail hstop
    simp only [PaUtil_GetRingBufferReadAvailable] at havail
    have hund := BlockingIoOutputSection_underflow_zero_fill outCh bs
      frames statusFlags hout havail hstop
    refine ⟨?_, ?_⟩
    · rw [hcomp2]
      exact hund.1
    · rw [hcomp1, hipres.2, hund.2]
  · intro hinch hlen hinv hcap
    constructor
    · intro hfull
      simp only [PaUtil_GetRingBufferWriteAvailable] at hfull
      have h1 := BlockingIoInputSection_overflow_append inCh
        (BlockingIoOutputSection outCh bs frames statusFlags).1 input
        frames statusFlags hinch hlen
        (by rw [hopres.1]; exact hinv)
        (by rw [hopres.1]; exact hcap)
        (by rw [hopres.1]; exact hfull)
      constructor
      · rw [hcomp1, h1.1, hopres.1]
      · rw [hcomp1, h1.2]
    · intro hfree
      simp only [PaUtil_GetRingBufferWriteAvailable] at hfree
      have h2 := BlockingIoInputSection_space_append inCh
        (BlockingIoOutputSection outCh bs frames statusFlags).1 input
        frames statusFlags hinch hlen
        (by rw [hopres.1]; exact hfree)
      rw [hcomp1, h2, hopres.1]

/-- Closed instance of the amended C7 theorem: for a stream with one input
and one output channel and two-frame hardware buffers, a cycle with three
frames queued outputs the first two and appends the input with room to
spare, while a cycle with an empty write ring buffer and a full read ring
buffer zero-fills the output, flags underflow, discards the oldest input
frames and flags overflow. -/
theorem claim_C7_amended_blocking_io_callback_transport_witness :
    (BlockingIoPaCallback 1 1
        { writeRingBuffer := { data := [5, 6, 7], bufferSize := 8 }
          readRingBuffer := { data := [1], bufferSize := 4 }
          outputUnderflowFlag := false, inputOverflowFlag := false
          stopFlag := false, writeBuffersRequestedFlag := false
          readFramesRequestedFlag := false, writeBuffersRequested := 0
          readFramesRequested := 0, writeBuffersReadyEventSet := false
          readFramesReadyEventSet := false } [3, 4] 2 0).2 = [5, 6] ∧
    (BlockingIoPaCallback 1 1
        { writeRingBuffer := { data := [5, 6, 7], bufferSize := 8 }
          readRingBuffer := { data := [1], bufferSize := 4 }
          outputUnderflowFlag := false, inputOverflowFlag := false
          stopFlag := false, writeBuffersRequestedFlag := false
          readFramesRequestedFlag := false, writeBuffersRequested := 0
          readFramesRequested := 0, writeBuffersReadyEventSet := false
          readFramesReadyEventSet :=
            false } [3, 4] 2 0).1.readRingBuffer.data = [1, 3, 4] ∧
    (BlockingIoPaCallback 1 1
        { writeRingBuffer := { data := [], bufferSize := 8 }
          readRingBuffer := { data := [1, 2, 3], bufferSize := 4 }
          outputUnderflowFlag := false, inputOverflowFlag := false
          stopFlag := false, writeBuffersRequestedFlag := false
          readFramesRequestedFlag := false, writeBuffersRequested := 0
          readFramesRequested := 0, writeBuffersReadyEventSet := false
          readFramesReadyEventSet := false } [3, 4] 2 0).2 = [0, 0] ∧
    (BlockingIoPaCallback 1 1
        { writeRingBuffer := { data := [], bufferSize := 8 }
          readRingBuffer := { data := [1, 2, 3], bufferSize := 4 }
          outputUnderflowFlag := false, inputOverflowFlag := false
          stopFlag := false, writeBuffersRequestedFlag := false
          readFramesRequestedFlag := false, writeBuffersRequested := 0
          readFramesRequested := 0, writeBuffersReadyEventSet := false
          readFramesReadyEventSet :=
            false } [3, 4] 2 0).1.outputUnderflowFlag = true ∧
    (BlockingIoPaCallback 1 1
        { writeRingBuffer := { data := [], bufferSize := 8 }
          readRingBuffer := { data := [1, 2, 3], bufferSize := 4 }
          outputUnderflowFlag := false, inputOverflowFlag := false
          stopFlag := false, writeBuffersRequestedFlag := false
          readFramesRequestedFlag := false, writeBuffersRequested := 0
          readFramesRequested := 0, writeBuffersReadyEventSet := false
          readFramesReadyEventSet :=
            false } [3, 4] 2 0).1.readRingBuffer.data = [3, 3, 4] ∧
    (BlockingIoPaCallback 1 1
        { writeRingBuffer := { data := [], bufferSize := 8 }
          readRingBuffer := { data := [1, 2, 3], bufferSize := 4 }
          outputUnderflowFlag := false, inputOverflowFlag := false
          stopFlag := false, writeBuffersRequestedFlag := false
          readFramesRequestedFlag := false, writeBuffersRequested := 0
          readFramesRequested := 0, writeBuffersReadyEventSet := false
          readFramesReadyEventSet :=
            false } [3, 4] 2 0).1.inputOverflowFlag = true := by
  have hA := claim_C7_amended_blocking_io_callback_transport 1 1
    { writeRingBuffer := { data := [5, 6, 7], bufferSize := 8 }
      readRingBuffer := { data := [1], bufferSize := 4 }
      outputUnderflowFlag := false, inputOverflowFlag := false
      stopFlag := false, writeBuffersRequestedFlag := false
      readFramesRequestedFlag := false, writeBuffersRequested := 0
      readFramesRequested := 0, writeBuffersReadyEventSet := false
      readFramesReadyEventSet := false } [3, 4] 2 0
  have hB := claim_C7_amended_blocking_io_callback_transport 1 1
    { writeRingBuffer := { data := [], bufferSize := 8 }
      readRingBuffer := { data := [1, 2, 3], bufferSize := 4 }
      outputUnderflowFlag := false, inputOverflowFlag := false
      stopFlag := false, writeBuffersRequestedFlag := false
      readFramesRequestedFlag := false, writeBuffersRequested := 0
      readFramesRequested := 0, writeBuffersReadyEventSet := false
      readFramesReadyEventSet := false } [3, 4] 2 0
  refine ⟨?_, ?_, ?_, ?_, ?_, ?_⟩
  · exact ((hA.1 (by decide) (by decide)).1).trans (by decide)
  · exact ((hA.2.2 (by decide) (by decide) (by decide) (by decide)).2
      (by decide)).trans (by decide)
  · exact ((hB.2.1 (by decide) (by decide) (by decide)).1).trans
      (by decide)
  · exact (hB.2.1 (by decide) (by decide) (by decide)).2
  · exact (((hB.2.2 (by decide) (by decide) (by decide)
      (by decide)).1 (by decide)).1).trans (by decide)
  · exact ((hB.2.2 (by decide) (by decide) (by decide)
      (by decide)).1 (by decide)).2

/-- Claim C8: a blocking Read or Write call returns `paStreamIsStopped`
immediately when the stop-in-progress flag is set or the stream is not
active; and when the call has to wait (fewer frames/less space available
than the first block needs) and that first wait exceeds the
eight-user-block timeout without the stop flag having been raised, the
call returns the distinct error `paTimedOut` instead of blocking. -/
theorem claim_C8_blocking_read_write_stop_and_timeout
    (isActive inputChannelCount outputChannelCount framesPerUserBuffer
      sampleRate : Nat) (bs : PaAsioStreamBlockingState)
    (userData : List Int) (frames : Nat) (w : WaitEvent)
    (waits : List WaitEvent) :
    (bs.stopFlag = true ∨ isActive = 0 →
      ReadStream isActive inputChannelCount framesPerUserBuffer sampleRate
        bs frames waits = PaError.paStreamIsStopped ∧
      WriteStream isActive outputChannelCount framesPerUserBuffer
        sampleRate bs userData frames waits =
        PaError.paStreamIsStopped) ∧
    (bs.stopFlag = false → isActive ≠ 0 → inputChannelCount ≠ 0 →
      PaUtil_GetRingBufferReadAvailable bs.readRingBuffer <
        min framesPerUserBuffer frames →
      WaitForSingleObjectResult w.wait
        (8 * framesPerUserBuffer * 1000 / sampleRate) =
        WaitResult.timedOut →
      w.stopFlagNow = false →
      ReadStream isActive inputChannelCount framesPerUserBuffer sampleRate
        bs frames (w :: waits) = PaError.paTimedOut) ∧
    (bs.stopFlag = false → isActive ≠ 0 → outputChannelCount ≠ 0 →
      PaUtil_GetRingBufferWriteAvailable bs.writeRingBuffer <
        min framesPerUserBuffer frames →
      WaitForSingleObjectResult w.wait
        (8 * framesPerUserBuffer * 1000 / sampleRate) =
        WaitResult.timedOut →
      w.stopFlagNow = false →
      WriteStream isActive outputChannelCount framesPerUserBuffer
        sampleRate bs userData frames (w :: waits) =
        PaError.paTimedOut) ∧
    PaError.paTimedOut ≠ PaError.paStreamIsStopped := by
  refine ⟨?_, ?_, ?_, by decide⟩
  · intro h
    constructor
    · unfold ReadStream
      rw [if_pos h]
    · unfold WriteStream
      rw [if_pos h]
  · intro hstop hact hin havail hwto hsfn
    unfold ReadStream
    rw [if_neg (by simp [hstop, hact]), if_pos hin]
    simp only [ReadStreamLoop]
    rw [if_pos havail]
    dsimp only
    rw [hwto]
    dsimp only
    rw [hsfn]
    simp
  · intro hstop hact hout havail hwto hsfn
    unfold WriteStream
    rw [if_neg (by simp [hstop, hact]), if_pos hout]
    simp only [WriteStreamLoop]
    rw [if_pos havail]
    dsimp only
    rw [hwto]
    dsimp only
    rw [hsfn]
    simp

/-- Closed instance of the C8 theorem: with four-frame user blocks at
8000 Hz the wait timeout is 4 ms; a stream with the stop flag raised
rejects both Read and Write with `paStreamIsStopped`, and an empty read
ring buffer (resp. full write ring buffer) whose first wait is signaled
only after 5 ms makes Read (resp. Write) return `paTimedOut`. -/
theorem claim_C8_blocking_read_write_stop_and_timeout_witness :
    ReadStream 1 1 4 8000
      { writeRingBuffer := { data := [], bufferSize := 8 }
        readRingBuffer := { data := [], bufferSize := 8 }
        outputUnderflowFlag := false, inputOverflowFlag := false
        stopFlag := true, writeBuffersRequestedFlag := false
        readFramesRequestedFlag := false, writeBuffersRequested := 0
        readFramesRequested := 0, writeBuffersReadyEventSet := false
        readFramesReadyEventSet := false } 4 [] =
      PaError.paStreamIsStopped ∧
    WriteStream 1 1 4 8000
      { writeRingBuffer := { data := [], bufferSize := 8 }
        readRingBuffer := { data := [], bufferSize := 8 }
        outputUnderflowFlag := false, inputOverflowFlag := false
        stopFlag := true, writeBuffersRequestedFlag := false
        readFramesRequestedFlag := false, writeBuffersRequested := 0
        readFramesRequested := 0, writeBuffersReadyEventSet := false
        readFramesReadyEventSet := false } [1, 2, 3, 4] 4 [] =
      PaError.paStreamIsStopped ∧
    ReadStream 1 1 4 8000
      { writeRingBuffer := { data := [], bufferSize := 8 }
        readRingBuffer := { data := [], bufferSize := 8 }
        outputUnderflowFlag := false, inputOverflowFlag := false
        stopFlag := false, writeBuffersRequestedFlag := false
        readFramesRequestedFlag := false, writeBuffersRequested := 0
        readFramesRequested := 0, writeBuffersReadyEventSet := false
        readFramesReadyEventSet := false } 4
      [{ wait := WaitSpec.signaledAfter 5
         stopFlagNow := false
         arrived := []
         freedFrames := 0 }] = PaError.paTimedOut ∧
    WriteStream 1 1 4 8000
      { writeRingBuffer :=
          { data := [1, 2, 3, 4, 5, 6, 7, 8], bufferSize := 8 }
        readRingBuffer := { data := [], bufferSize := 8 }
        outputUnderflowFlag := false, inputOverflowFlag := false
        stopFlag := false, writeBuffersRequestedFlag := false
        readFramesRequestedFlag := false, writeBuffersRequested := 0
        readFramesRequested := 0, writeBuffersReadyEventSet := false
        readFramesReadyEventSet := false } [1, 2, 3, 4] 4
      [{ wait := WaitSpec.signaledAfter 5
         stopFlagNow := false
         arrived := []
         freedFrames := 0 }] = PaError.paTimedOut := by
  refine ⟨?_, ?_, ?_, ?_⟩
  · exact ((claim_C8_blocking_read_write_stop_and_timeout 1 1 1 4 8000
      { writeRingBuffer := { data := [], bufferSize := 8 }
        readRingBuffer := { data := [], bufferSize := 8 }
        outputUnderflowFlag := false, inputOverflowFlag := false
        stopFlag := true, writeBuffersRequestedFlag := false
        readFramesRequestedFlag := false, writeBuffersRequested := 0
        readFramesRequested := 0, writeBuffersReadyEventSet := false
        readFramesReadyEventSet := false } [1, 2, 3, 4] 4
      { wait := WaitSpec.signaledAfter 5
        stopFlagNow := false
        arrived := []
        freedFrames := 0 } []).1 (Or.inl (by decide))).1
  · exact ((claim_C8_blocking_read_write_stop_and_timeout 1 1 1 4 8000
      { writeRingBuffer := { data := [], bufferSize := 8 }
        readRingBuffer := { data := [], bufferSize := 8 }
        outputUnderflowFlag := false, inputOverflowFlag := false
        stopFlag := true, writeBuffersRequestedFlag := false
        readFramesRequestedFlag := false, writeBuffersRequested := 0
        readFramesRequested := 0, writeBuffersReadyEventSet := false
        readFramesReadyEventSet := false } [1, 2, 3, 4] 4
      { wait := WaitSpec.signaledAfter 5
        stopFlagNow := false
        arrived := []
        freedFrames := 0 } []).1 (Or.inl (by decide))).2
  · exact (claim_C8_blocking_read_write_stop_and_timeout 1 1 1 4 8000
      { writeRingBuffer := { data := [], bufferSize := 8 }
        readRingBuffer := { data := [], bufferSize := 8 }
        outputUnderflowFlag := false, inputOverflowFlag := false
        stopFlag := false, writeBuffersRequestedFlag := false
        readFramesRequestedFlag := false, writeBuffersRequested := 0
        readFramesRequested := 0, writeBuffersReadyEventSet := false
        readFramesReadyEventSet := false } [1, 2, 3, 4] 4
      { wait := WaitSpec.signaledAfter 5
        stopFlagNow := false
        arrived := []
        freedFrames := 0 } []).2.1 (by decide) (by decide)
      (by decide) (by decide) (by decide) (by decide)
  · exact (claim_C8_blocking_read_write_stop_and_timeout 1 1 1 4 8000
      { writeRingBuffer :=
          { data := [1, 2, 3, 4, 5, 6, 7, 8], bufferSize := 8 }
        readRingBuffer := { data := [], bufferSize := 8 }
        outputUnderflowFlag := false, inputOverflowFlag := false
        stopFlag := false, writeBuffersRequestedFlag := false
        readFramesRequestedFlag := false, writeBuffersRequested := 0
        readFramesRequested := 0, writeBuffersReadyEventSet := false
        readFramesReadyEventSet := false } [1, 2, 3, 4] 4
      { wait := WaitSpec.signaledAfter 5
        stopFlagNow := false
        arrived := []
        freedFrames := 0 } []).2.2.1 (by decide)
      (by decide) (by decide) (by decide) (by decide) (by decide)

end PaAsio
